import Mathlib

/-!
Shallow embedding of the DirtyDmgTestbed core sources
(src/dirtydmg-core/src/ppu.rs and src/dirtydmg-core/src/bus.rs).

Modelling conventions:
* Rust fixed-size arrays are modelled as total functions Nat → α together with
  explicit bounds checks at every indexing site; a failed check yields none,
  which models a Rust index-out-of-bounds panic.  The unreachable panic arms of
  the Rust match statements are likewise modelled by none.
* Machine integers are modelled as Nat with an explicit % 2 ^ w exactly where
  the Rust code performs a wrapping addition or a truncating cast.
* The PPU only ever reads from the bus it is handed (in dma_transfer), so the
  external bus is modelled as a pure read function Nat → Nat.
-/

namespace DirtyDmg

/-- Bounds-checked array read: models f[i] on a Rust array of length size;
none models the index-out-of-bounds panic. -/
def arrGet {α : Type} (f : Nat → α) (size i : Nat) : Option α :=
  if i < size then some (f i) else none

/-- Bounds-checked array write: models f[i] = v on a Rust array of length size. -/
def arrSet {α : Type} (f : Nat → α) (size i : Nat) (v : α) : Option (Nat → α) :=
  if i < size then some (fun j => if j = i then v else f j) else none

/-- Bounds-checked in-place array update: models f[i].method(...) on a Rust
array of length size. -/
def arrModify {α : Type} (f : Nat → α) (size i : Nat) (g : α → α) : Option (Nat → α) :=
  if i < size then some (fun j => if j = i then g (f j) else f j) else none

/-- Rust bool-to-u8 cast (b as u8). -/
def b2n (b : Bool) : Nat := if b then 1 else 0

/-! Constants from ppu.rs. -/

def TILESET_RAM : Nat := 0x1800
def TILESET_COUNT : Nat := 0x180
def TILESET_START_ADDRESS : Nat := 0x8000
def TILESET_END_ADDRESS : Nat := TILESET_START_ADDRESS + TILESET_RAM - 1
def TILE_DIMENSION : Nat := 8
def TILE_SIZE : Nat := 16
def TILEMAP_ITEM_COUNT : Nat := 32 * 32
def TILEMAPS_SIZE : Nat := 2 * TILEMAP_ITEM_COUNT
def TILEMAP_START_ADDRESS : Nat := 0x9800
def TILEMAP_END_ADDRESS : Nat := 0x9FFF
def OAM_SPRITE_COUNT : Nat := 40
def OAM_SPRITE_SIZE : Nat := 4
def OAM_RAM_SIZE : Nat := OAM_SPRITE_COUNT * OAM_SPRITE_SIZE
def OAM_START_ADDRESS : Nat := 0xFE00
def OAM_END_ADDRESS : Nat := OAM_START_ADDRESS + OAM_RAM_SIZE
def LCDC_ADDRESS : Nat := 0xFF40
def LCDS_ADDRESS : Nat := 0xFF41
def SCY_ADDRESS : Nat := 0xFF42
def SCX_ADDRESS : Nat := 0xFF43
def LY_ADDRESS : Nat := 0xFF44
def LYC_ADDRES : Nat := 0xFF45
def WY_ADDRESS : Nat := 0xFF4A
def WX_ADDRESS : Nat := 0xFF4B
def OAM_DMA_REGISTER_ADDRESS : Nat := 0xFF46
def BG_PALETTE_ADDRESS : Nat := 0xFF47
def OBJ_PALETTE1_ADDRESS : Nat := 0xFF48
def OBJ_PALETTE2_ADDRESS : Nat := 0xFF49
def OAM_DMA_TRANSFER_TICKS : Nat := 160
def LCD_TICKS_PER_LINE : Nat := 456
def LCD_LINE_VBLANK_START : Nat := 144
def LCD_LINE_VBLANK_END : Nat := 153

/-- Tile: an 8x8 grid of 2-bit pixels in an easily accessible format
(struct Tile in ppu.rs, pixel field). -/
structure Tile where
  pixel : Nat → Nat → Nat

/-- Tile::update_row.  The Rust loop runs x over (0..8).rev(), clearing the
plane bit selected by msb in pixel[y][x], or-ing in (data & 1) << shift, and
shifting data right once per iteration. -/
def Tile.update_row (t : Tile) (data y : Nat) (msb : Bool) : Tile :=
  let shift : Nat := if msb then 1 else 0
  let clear_mask : Nat := 0xFF ^^^ (1 <<< shift)
  let res := (List.range 8).reverse.foldl
    (fun (st : (Nat → Nat → Nat) × Nat) x =>
      (fun y' x' =>
        if y' = y ∧ x' = x then (st.1 y' x' &&& clear_mask) ||| ((st.2 &&& 1) <<< shift)
        else st.1 y' x',
       st.2 >>> 1))
    (t.pixel, data)
  Tile.mk res.1

def Tile.new : Tile := Tile.mk (fun _ _ => 0)

/-- struct Palette in ppu.rs. -/
structure Palette where
  table : Nat → Nat
  raw : Nat

def Palette.new : Palette := Palette.mk (fun _ => 0) 0

/-- Palette::update: stores the raw byte, then the loop over i in 0..4 writes
table[i] = raw & 0b11 and shifts raw right by two each iteration. -/
def Palette.update (p : Palette) (raw : Nat) : Palette :=
  let res := (List.range 4).foldl
    (fun (st : (Nat → Nat) × Nat) i =>
      (fun j => if j = i then st.2 &&& 0b11 else st.1 j, st.2 >>> 2))
    (p.table, raw)
  Palette.mk res.1 raw

/-- struct OamSprite in ppu.rs. -/
structure OamSprite where
  ypos : Nat
  xpos : Nat
  tile : Nat
  behind_background : Bool
  xflip : Bool
  yflip : Bool
  palette : Bool
deriving DecidableEq

def OamSprite.new : OamSprite :=
  { ypos := 0, xpos := 0, tile := 0,
    behind_background := false, xflip := false, yflip := false, palette := false }

/-- OamSprite::set_attrib_byte, with the four attribute masks from ppu.rs
(BG_PRIORITY 0x80, YFLIP 0x40, XFLIP 0x20, PALLET 0x10). -/
def OamSprite.set_attrib_byte (s : OamSprite) (data : Nat) : OamSprite :=
  { s with
    behind_background := data &&& 0x80 != 0,
    xflip := data &&& 0x20 != 0,
    yflip := data &&& 0x40 != 0,
    palette := data &&& 0x10 != 0 }

/-- enum Mode in ppu.rs. -/
inductive Mode where
  | HBLANK
  | VBLANK
  | SPRITE_SEARCH
  | LCD_TRANSFER
deriving DecidableEq

/-- The discriminant values of enum Mode (HBLANK = 0 .. LCD_TRANSFER = 3),
used by the `self.mode as u8` cast in lcds_read. -/
def Mode.toNat : Mode → Nat
  | Mode.HBLANK => 0
  | Mode.VBLANK => 1
  | Mode.SPRITE_SEARCH => 2
  | Mode.LCD_TRANSFER => 3

/-- Modelled from the spec: the external interrupt sink
(crate::interrupt::InterruptStatus, which is not one of the two source files
under src/).  The PPU only ever calls request_vblank and request_lcdstat on it;
we record the number of calls made to each, which is what the claims about
interrupt requests quantify over. -/
structure IS where
  vblank : Nat
  lcdstat : Nat
deriving DecidableEq

def IS.new : IS := IS.mk 0 0

def IS.request_vblank (i : IS) : IS := { i with vblank := i.vblank + 1 }

def IS.request_lcdstat (i : IS) : IS := { i with lcdstat := i.lcdstat + 1 }

/-- struct PPU in ppu.rs. -/
structure PPU where
  tile_data : Nat → Nat
  tiles : Nat → Tile
  tilemaps : Nat → Nat
  sprites : Nat → OamSprite
  sprite_data : Nat → Nat
  lcdc : Nat
  lcd_enabled : Bool
  window_tiles_high : Bool
  window_enabled : Bool
  bg_window_signed_addressing : Bool
  bg_tiles_high : Bool
  obj_double_sprites : Bool
  obj_enabled : Bool
  bg_window_enable : Bool
  lcds : Nat
  line_compare_is : Bool
  mode2_is : Bool
  mode1_is : Bool
  mode0_is : Bool
  line_compare : Bool
  mode : Mode
  scroll_y : Nat
  scroll_x : Nat
  line_y : Nat
  line_compare_value : Nat
  window_y : Nat
  window_x : Nat
  bg_palette : Palette
  obj_palette1 : Palette
  obj_palette2 : Palette
  oam_dma_ticks : Nat
  oam_dma_src : Nat
  tick_counter : Nat

/-- PPU::new. -/
def PPU.new : PPU :=
  { tile_data := fun _ => 0
    tiles := fun _ => Tile.new
    tilemaps := fun _ => 0
    sprites := fun _ => OamSprite.new
    sprite_data := fun _ => 0
    lcdc := 0
    lcd_enabled := false
    window_tiles_high := false
    window_enabled := false
    bg_window_signed_addressing := false
    bg_tiles_high := false
    obj_double_sprites := false
    obj_enabled := false
    bg_window_enable := false
    lcds := 0
    line_compare_is := false
    mode2_is := false
    mode1_is := false
    mode0_is := false
    line_compare := false
    mode := Mode.HBLANK
    scroll_y := 0
    scroll_x := 0
    line_y := 0
    line_compare_value := 0
    window_y := 0
    window_x := 0
    bg_palette := Palette.new
    obj_palette1 := Palette.new
    obj_palette2 := Palette.new
    oam_dma_ticks := 0
    oam_dma_src := 0
    tick_counter := 0 }

/-- PPU::tile_write.  Stores the raw byte, then updates the decoded tile row.
The y row is computed from the full address exactly as in the source
((addr >> 1) & 0x7). -/
def PPU.tile_write (p : PPU) (data addr : Nat) : Option PPU := do
  let index := (addr - TILESET_START_ADDRESS) / TILE_SIZE
  let y := (addr >>> 1) &&& 0x7
  let msb := addr &&& 0x01 != 0
  let td ← arrSet p.tile_data TILESET_RAM (addr - TILESET_START_ADDRESS) data
  let tiles2 ← arrModify p.tiles TILESET_COUNT index (fun t => t.update_row data y msb)
  some { p with tile_data := td, tiles := tiles2 }

/-- PPU::sprite_write.  Updates the decoded sprite field selected by the low
two address bits, then stores the raw byte; the final match arm of the source
is a panic! and is modelled by none (it is unreachable since field < 4). -/
def PPU.sprite_write (p : PPU) (data addr : Nat) : Option PPU := do
  let index := (addr - OAM_START_ADDRESS) / OAM_SPRITE_SIZE
  let field := addr &&& 0b11
  let sprites2 ←
    match field with
    | 0 => arrModify p.sprites OAM_SPRITE_COUNT index (fun s => { s with ypos := data })
    | 1 => arrModify p.sprites OAM_SPRITE_COUNT index (fun s => { s with xpos := data })
    | 2 => arrModify p.sprites OAM_SPRITE_COUNT index (fun s => { s with tile := data })
    | 3 => arrModify p.sprites OAM_SPRITE_COUNT index (fun s => s.set_attrib_byte data)
    | _ => none
  let sd ← arrSet p.sprite_data OAM_RAM_SIZE (addr - OAM_START_ADDRESS) data
  some { p with sprites := sprites2, sprite_data := sd }

/-- PPU::lcdc_write, with the LCDC bit masks from ppu.rs. -/
def PPU.lcdc_write (p : PPU) (data : Nat) : PPU :=
  { p with
    lcdc := data,
    lcd_enabled := data &&& 0x80 != 0,
    window_tiles_high := data &&& 0x40 != 0,
    window_enabled := data &&& 0x20 != 0,
    bg_window_signed_addressing := data &&& 0x10 != 0,
    bg_tiles_high := data &&& 0x08 != 0,
    obj_double_sprites := data &&& 0x04 != 0,
    obj_enabled := data &&& 0x02 != 0,
    bg_window_enable := data &&& 0x01 != 0 }

/-- PPU::lcds_write: only the four interrupt-source enable bits are writable
(LCDS_LINE_CMP_IS 1<<6, MODE2 1<<5, MODE1 1<<4, MODE0 1<<3). -/
def PPU.lcds_write (p : PPU) (data : Nat) : PPU :=
  { p with
    line_compare_is := data &&& (1 <<< 6) != 0,
    mode2_is := data &&& (1 <<< 5) != 0,
    mode1_is := data &&& (1 <<< 4) != 0,
    mode0_is := data &&& (1 <<< 3) != 0 }

/-- PPU::lcds_read: reassembles the LCDS value one bit at a time starting from
the msb, exactly as the source does. -/
def PPU.lcds_read (p : PPU) : Nat :=
  let value : Nat := 0
  let value := value ||| b2n p.line_compare_is
  let value := value <<< 1
  let value := value ||| b2n p.mode2_is
  let value := value <<< 1
  let value := value ||| b2n p.mode1_is
  let value := value <<< 1
  let value := value ||| b2n p.mode0_is
  let value := value <<< 1
  let value := value ||| b2n p.line_compare
  let value := value <<< 2
  value ||| p.mode.toNat

/-- PPU::dma_start.  target is a u8 (the byte written to 0xFF46). -/
def PPU.dma_start (p : PPU) (target : Nat) : PPU :=
  { p with oam_dma_src := target <<< 8, oam_dma_ticks := OAM_DMA_TRANSFER_TICKS }

/-- PPU::dma_transfer: for x in 0..160, sprite_write(bus.bus_read8(address + x),
OAM_START_ADDRESS + x). -/
def PPU.dma_transfer (p : PPU) (bus : Nat → Nat) : Option PPU :=
  let address := p.oam_dma_src
  (List.range OAM_RAM_SIZE).foldlM
    (fun q x => q.sprite_write (bus (address + x)) (OAM_START_ADDRESS + x)) p

/-- PPU::update_dma.  ticks is a u16; the subtraction casts it to u8
(ticks % 256), which is lossless in the taken branch because there
ticks < oam_dma_ticks < 256. -/
def PPU.update_dma (p : PPU) (ticks : Nat) (bus : Nat → Nat) : Option PPU :=
  if p.oam_dma_ticks > 0 then do
    let q ← if p.oam_dma_ticks = OAM_DMA_TRANSFER_TICKS then p.dma_transfer bus else some p
    if q.oam_dma_ticks > ticks then
      some { q with oam_dma_ticks := q.oam_dma_ticks - ticks % 256 }
    else
      some { q with oam_dma_ticks := 0 }
  else some p

/-- The statement self.tick_counter += ticks on a u16 counter. -/
def PPU.tick_add (p : PPU) (ticks : Nat) : PPU :=
  { p with tick_counter := (p.tick_counter + ticks) % 65536 }

/-- The "if the line has expired" block of PPU::execute_ticks: subtract a full
line of ticks, advance line_y, recompute line_compare (requesting LCD-STAT
when enabled), enter VBLANK at line 144 (requesting V-blank, and LCD-STAT when
enabled), wrap past line 153, and call the draw_line stub (a no-op). -/
def PPU.ppu_line_advance (p : PPU) (i : IS) : PPU × IS :=
  if LCD_TICKS_PER_LINE ≤ p.tick_counter then
    let p := { p with tick_counter := p.tick_counter - LCD_TICKS_PER_LINE }
    let p := { p with line_y := (p.line_y + 1) % 256 }
    let p := { p with line_compare := p.line_compare_value == p.line_y }
    let i := if p.line_compare then (if p.line_compare_is then i.request_lcdstat else i) else i
    let s :=
      if p.line_y = LCD_LINE_VBLANK_START then
        let p := { p with mode := Mode.VBLANK }
        let i := i.request_vblank
        let i := if p.mode1_is then i.request_lcdstat else i
        (p, i)
      else (p, i)
    let p := s.1
    let i := s.2
    let p := if LCD_LINE_VBLANK_END < p.line_y then { p with line_y := 0, mode := Mode.SPRITE_SEARCH } else p
    (p, i)
  else (p, i)

/-- The "if we are not in vblank" block of PPU::execute_ticks: classify the
mode from tick_counter (0..=79 SPRITE_SEARCH, 80..=251 LCD_TRANSFER, otherwise
HBLANK) and, on a mode change, request LCD-STAT for modes 2 and 0 when their
enable bits are set. -/
def PPU.ppu_mode_update (p : PPU) (i : IS) : PPU × IS :=
  if p.line_y < LCD_LINE_VBLANK_START then
    let new_mode :=
      if p.tick_counter ≤ 79 then Mode.SPRITE_SEARCH
      else if p.tick_counter ≤ 251 then Mode.LCD_TRANSFER
      else Mode.HBLANK
    if new_mode ≠ p.mode then
      let p2 := { p with mode := new_mode }
      let i2 :=
        match new_mode with
        | Mode.SPRITE_SEARCH => if p.mode2_is then i.request_lcdstat else i
        | Mode.HBLANK => if p.mode0_is then i.request_lcdstat else i
        | _ => i
      (p2, i2)
    else (p, i)
  else (p, i)

/-- PPU::execute_ticks: run the DMA step, then, when the LCD is enabled,
accumulate ticks, advance the line when a full line has expired, and
reclassify the in-line mode. -/
def PPU.execute_ticks (p : PPU) (ticks : Nat) (bus : Nat → Nat) (i : IS) :
    Option (PPU × IS) :=
  match p.update_dma ticks bus with
  | none => none
  | some p1 =>
    if p1.lcd_enabled then
      let a := (p1.tick_add ticks).ppu_line_advance i
      some (a.1.ppu_mode_update a.2)
    else some (p1, i)

/-- impl BusRW for PPU: bus_read8.  The match arms are tried in source order;
the final arm is a panic! modelled by none.  The 0xFF46 read returns the high
byte of oam_dma_src ((src >> 8) as u8). -/
def PPU.bus_read8 (p : PPU) (addr : Nat) : Option Nat :=
  if TILESET_START_ADDRESS ≤ addr ∧ addr ≤ TILESET_END_ADDRESS then
    arrGet p.tile_data TILESET_RAM (addr - TILESET_START_ADDRESS)
  else if TILEMAP_START_ADDRESS ≤ addr ∧ addr ≤ TILEMAP_END_ADDRESS then
    arrGet p.tilemaps TILEMAPS_SIZE (addr - TILEMAP_START_ADDRESS)
  else if OAM_START_ADDRESS ≤ addr ∧ addr ≤ OAM_END_ADDRESS then
    arrGet p.sprite_data OAM_RAM_SIZE (addr - OAM_START_ADDRESS)
  else if addr = LCDC_ADDRESS then some p.lcdc
  else if addr = LCDS_ADDRESS then some p.lcds_read
  else if addr = SCY_ADDRESS then some p.scroll_y
  else if addr = SCX_ADDRESS then some p.scroll_x
  else if addr = LY_ADDRESS then some p.line_y
  else if addr = LYC_ADDRES then some p.line_compare_value
  else if addr = WY_ADDRESS then some p.window_y
  else if addr = WX_ADDRESS then some p.window_x
  else if addr = BG_PALETTE_ADDRESS then some p.bg_palette.raw
  else if addr = OBJ_PALETTE1_ADDRESS then some p.obj_palette1.raw
  else if addr = OBJ_PALETTE2_ADDRESS then some p.obj_palette2.raw
  else if addr = OAM_DMA_REGISTER_ADDRESS then some ((p.oam_dma_src >>> 8) % 256)
  else none

/-- impl BusRW for PPU: bus_write8.  The match arms are tried in source order;
the LY write is dead, and the final arm is a panic! modelled by none. -/
def PPU.bus_write8 (p : PPU) (addr value : Nat) : Option PPU :=
  if TILESET_START_ADDRESS ≤ addr ∧ addr ≤ TILESET_END_ADDRESS then
    p.tile_write value addr
  else if TILEMAP_START_ADDRESS ≤ addr ∧ addr ≤ TILEMAP_END_ADDRESS then
    (arrSet p.tilemaps TILEMAPS_SIZE (addr - TILEMAP_START_ADDRESS) value).map
      (fun tm => { p with tilemaps := tm })
  else if OAM_START_ADDRESS ≤ addr ∧ addr ≤ OAM_END_ADDRESS then
    p.sprite_write value addr
  else if addr = LCDC_ADDRESS then some (p.lcdc_write value)
  else if addr = LCDS_ADDRESS then some (p.lcds_write value)
  else if addr = SCY_ADDRESS then some { p with scroll_y := value }
  else if addr = SCX_ADDRESS then some { p with scroll_x := value }
  else if addr = LY_ADDRESS then some p
  else if addr = LYC_ADDRES then some { p with line_compare_value := value }
  else if addr = WY_ADDRESS then some { p with window_y := value }
  else if addr = WX_ADDRESS then some { p with window_x := value }
  else if addr = BG_PALETTE_ADDRESS then some { p with bg_palette := p.bg_palette.update value }
  else if addr = OBJ_PALETTE1_ADDRESS then some { p with obj_palette1 := p.obj_palette1.update value }
  else if addr = OBJ_PALETTE2_ADDRESS then some { p with obj_palette2 := p.obj_palette2.update value }
  else if addr = OAM_DMA_REGISTER_ADDRESS then some (p.dma_start value)
  else none

/-! The bus fabric from bus.rs.  A device behind the bus is identified by an
abstract handle (the item field); read dispatch is parameterised by a family
devRead of per-device read functions, and a write is modelled by the
delegation event it produces: some (device handle, addr, value) when a
registered range contains the address, none when the write is silently
dropped. -/

/-- struct BusItem: an address range bound to a device handle. -/
structure BusItem where
  start_addr : Nat
  end_addr : Nat
  item : Nat
deriving DecidableEq

/-- BusItem::in_range: self.start_addr <= addr && self.end_addr >= addr. -/
def BusItem.in_range (b : BusItem) (addr : Nat) : Bool :=
  decide (b.start_addr ≤ addr) && decide (addr ≤ b.end_addr)

/-- Bus::get_item: self.members.iter().find(|&x| x.in_range(addr)). -/
def bus_get_item (members : List BusItem) (addr : Nat) : Option BusItem :=
  members.find? (fun x => x.in_range addr)

/-- impl BusRW for Bus: bus_read8 — delegate to the located item, 0xFF when no
item is found (open bus). -/
def busFabric_read8 (members : List BusItem) (devRead : Nat → Nat → Nat) (addr : Nat) : Nat :=
  match bus_get_item members addr with
  | some x => devRead x.item addr
  | none => 0xFF

/-- impl BusRW for Bus: bus_write8 — delegate to the located item (the event
is the device handle with the forwarded address and value), silently dropped
(none) when no item is found. -/
def busFabric_write8 (members : List BusItem) (addr value : Nat) : Option (Nat × Nat × Nat) :=
  (bus_get_item members addr).map (fun x => (x.item, addr, value))

/-! Test-harness runner mirroring the repository's own tests
(PPU::run in ppu.rs test module / test_vblank_interrupts): execute lines of
456 ticks against a zero-filled RAM. -/

/-- Run n successive execute_ticks(456) calls, as test_vblank_interrupts does. -/
def run_lines (p : PPU) (i : IS) : Nat → Option (PPU × IS)
  | 0 => some (p, i)
  | n + 1 => (run_lines p i n).bind (fun s => s.1.execute_ticks 456 (fun _ => 0) s.2)

/-! Generic helper lemmas. -/

/-- A nonzero test against a single-bit mask is the corresponding testBit. -/
lemma and_mask_ne_zero_eq_testBit (v k : Nat) : (v &&& (1 <<< k) != 0) = v.testBit k := by
  rw [Nat.shiftLeft_eq, one_mul, Nat.and_two_pow]
  have hk : (2 : Nat) ^ k ≠ 0 := Nat.pos_iff_ne_zero.mp (Nat.pos_pow_of_pos k (by norm_num))
  cases h : v.testBit k <;> simp [hk]

/-- find? returns the first element satisfying the predicate: if position i
satisfies it and every earlier position does not, find? returns element i. -/
lemma find?_first {α : Type} (pred : α → Bool) :
    ∀ (l : List α) (i : Nat) (h : i < l.length),
      pred (l.get ⟨i, h⟩) = true →
      (∀ j : Nat, ∀ hj : j < i, pred (l.get ⟨j, Nat.lt_trans hj h⟩) = false) →
      l.find? pred = some (l.get ⟨i, h⟩)
  | [], i, h => by simp at h
  | a :: l, 0, h => by
    intro hp _
    simp only [List.get] at hp ⊢
    simp [List.find?, hp]
  | a :: l, i + 1, h => by
    intro hp hearlier
    have ha : pred a = false := hearlier 0 (Nat.succ_pos i)
    simp only [List.find?, ha]
    exact find?_first pred l i (Nat.lt_of_succ_lt_succ h) hp
      (fun j hj => hearlier (j + 1) (Nat.succ_lt_succ hj))

/-- C8: bus_read8 delegates to the first registered item whose inclusive range
contains the address and returns its result, falling back to 0xFF when no
registered range contains the address; bus_write8 delegates to that same first
item, and is silently dropped when no range contains the address.  Overlaps
are resolved by registration order and no error is raised in either case. -/
theorem C8_bus_routing (members : List BusItem) (devRead : Nat → Nat → Nat)
    (addr value : Nat) :
    ((∀ b ∈ members, b.in_range addr = false) →
      busFabric_read8 members devRead addr = 0xFF ∧
      busFabric_write8 members addr value = none) ∧
    (∀ i : Nat, ∀ h : i < members.length,
      (members.get ⟨i, h⟩).in_range addr = true →
      (∀ j : Nat, ∀ hj : j < i, (members.get ⟨j, Nat.lt_trans hj h⟩).in_range addr = false) →
      busFabric_read8 members devRead addr = devRead (members.get ⟨i, h⟩).item addr ∧
      busFabric_write8 members addr value = some ((members.get ⟨i, h⟩).item, addr, value)) := by
  constructor
  · intro hnone
    have h : bus_get_item members addr = none := by
      apply List.find?_eq_none.mpr
      intro b hb
      simp [hnone b hb]
    constructor
    · simp [busFabric_read8, h]
    · simp [busFabric_write8, h]
  · intro i h hp hearlier
    have h : bus_get_item members addr = some (members.get ⟨i, h⟩) :=
      find?_first _ members i h hp hearlier
    constructor
    · simp [busFabric_read8, h]
    · simp [busFabric_write8, h]

/-- Concrete bus with two overlapping ranges used to witness C8. -/
def c8members : List BusItem :=
  [BusItem.mk 0 10 1, BusItem.mk 5 20 2]

/-- Concrete per-device read family used to witness C8. -/
def c8devRead : Nat → Nat → Nat := fun d a => d * 1000 + a

/-- Witness for C8: address 7 lies in both ranges; the bus delegates to the
first registered item (device 1). -/
theorem C8_witness :
    busFabric_read8 c8members c8devRead 7 = 1007 ∧
    busFabric_write8 c8members 7 9 = some (1, 7, 9) := by
  have h := (C8_bus_routing c8members c8devRead 7 9).2 0 (by decide) (by decide)
    (fun j hj => absurd hj (Nat.not_lt_zero j))
  exact ⟨h.1.trans (by decide), h.2.trans (by decide)⟩

/-- C10: address 0xFEA0 (one past the OAM table) is accepted by the OAM match
arm, whose inclusive upper bound OAM_END_ADDRESS is 0xFE00 + 160, and the
subsequent access indexes sprite_data[160] (read) or sprites[40] (write), one
past the end of the arrays: both operations panic (modelled by none) rather
than behaving as open bus or as a no-op. -/
theorem C10_oam_end_overflow (p : PPU) (v : Nat) :
    OAM_START_ADDRESS ≤ 0xFEA0 ∧ 0xFEA0 ≤ OAM_END_ADDRESS ∧
    OAM_END_ADDRESS = OAM_START_ADDRESS + 160 ∧
    p.bus_read8 0xFEA0 = none ∧ p.bus_write8 0xFEA0 v = none := by
  refine ⟨by norm_num [OAM_START_ADDRESS],
          by norm_num [OAM_START_ADDRESS, OAM_END_ADDRESS, OAM_RAM_SIZE,
            OAM_SPRITE_COUNT, OAM_SPRITE_SIZE],
          by norm_num [OAM_START_ADDRESS, OAM_END_ADDRESS, OAM_RAM_SIZE,
            OAM_SPRITE_COUNT, OAM_SPRITE_SIZE], ?_, ?_⟩
  · norm_num [PPU.bus_read8, arrGet, TILESET_START_ADDRESS, TILESET_END_ADDRESS,
      TILESET_RAM, TILEMAP_START_ADDRESS, TILEMAP_END_ADDRESS, OAM_START_ADDRESS,
      OAM_END_ADDRESS, OAM_RAM_SIZE, OAM_SPRITE_COUNT, OAM_SPRITE_SIZE]
  · have hfield : (0xFEA0 &&& 0b11 : Nat) = 0 := by decide
    norm_num [PPU.bus_write8, PPU.sprite_write, hfield, arrModify,
      TILESET_START_ADDRESS, TILESET_END_ADDRESS, TILESET_RAM,
      TILEMAP_START_ADDRESS, TILEMAP_END_ADDRESS, OAM_START_ADDRESS,
      OAM_END_ADDRESS, OAM_RAM_SIZE, OAM_SPRITE_COUNT, OAM_SPRITE_SIZE]

/-- C9 counterexample: the claim fails already at the reset state, which is
reachable by the empty sequence of operations: PPU::new initialises
line_compare to false although line_y == line_compare_value (both 0). -/
theorem C9_counterexample :
    ¬ (PPU.new.line_compare = (PPU.new.line_compare_value == PPU.new.line_y)) := by
  decide

/-- Extracting one bit by shift-and-mask is testBit. -/
lemma extract_bit (X k : Nat) : (X >>> k) &&& 1 = b2n (X.testBit k) := by
  rw [Nat.and_one_is_mod, Nat.shiftRight_eq_div_pow, Nat.testBit_to_div_mod]
  rcases Nat.mod_two_eq_zero_or_one (X / 2 ^ k) with h | h <;> simp [h, b2n]

/-- Numeric value of lcds_read in terms of the six status fields. -/
lemma lcds_read_eq (p : PPU) :
    p.lcds_read = 64 * b2n p.line_compare_is + 32 * b2n p.mode2_is +
      16 * b2n p.mode1_is + 8 * b2n p.mode0_is + 4 * b2n p.line_compare +
      p.mode.toNat := by
  unfold PPU.lcds_read
  cases p.line_compare_is <;> cases p.mode2_is <;> cases p.mode1_is <;>
    cases p.mode0_is <;> cases p.line_compare <;> cases p.mode <;> rfl

set_option maxRecDepth 100000 in
/-- The reassembled LCDS value equals the specification formula
(v & 0x78) | (line_compare << 2) | mode. -/
lemma lcds_formula : ∀ w < 256, ∀ lc < 2, ∀ m < 4,
    64 * b2n (w.testBit 6) + 32 * b2n (w.testBit 5) + 16 * b2n (w.testBit 4) +
      8 * b2n (w.testBit 3) + 4 * lc + m
      = (w &&& 0x78) ||| (lc <<< 2) ||| m := by decide

/-- C6: writing v to 0xFF41 updates exactly the four interrupt-enable bits
3..6 (decoded as testBits of v) and nothing else; any later read of 0xFF41
from a state still carrying those four bits returns
(v & 0x78) | (line_compare << 2) | mode with line_compare and mode taken from
the state at read time, so bit 7 is never taken from v and bits 0..2 are
regenerated from state. -/
theorem C6_lcds (p : PPU) (v : Nat) (hv : v < 256) :
    ∃ p2, p.bus_write8 0xFF41 v = some p2 ∧
      p2 = { p with line_compare_is := v.testBit 6, mode2_is := v.testBit 5,
                    mode1_is := v.testBit 4, mode0_is := v.testBit 3 } ∧
      (∀ q : PPU, q.line_compare_is = v.testBit 6 → q.mode2_is = v.testBit 5 →
        q.mode1_is = v.testBit 4 → q.mode0_is = v.testBit 3 →
        q.bus_read8 0xFF41 =
          some ((v &&& 0x78) ||| (b2n q.line_compare <<< 2) ||| q.mode.toNat)) := by
  have hw : p.bus_write8 0xFF41 v = some (p.lcds_write v) := by
    norm_num [PPU.bus_write8, TILESET_START_ADDRESS, TILESET_END_ADDRESS,
      TILESET_RAM, TILEMAP_START_ADDRESS, TILEMAP_END_ADDRESS,
      OAM_START_ADDRESS, OAM_END_ADDRESS, OAM_RAM_SIZE, OAM_SPRITE_COUNT,
      OAM_SPRITE_SIZE, LCDC_ADDRESS, LCDS_ADDRESS]
  refine ⟨p.lcds_write v, hw, ?_, ?_⟩
  · unfold PPU.lcds_write
    rw [and_mask_ne_zero_eq_testBit, and_mask_ne_zero_eq_testBit,
      and_mask_ne_zero_eq_testBit, and_mask_ne_zero_eq_testBit]
  · intro q h6 h5 h4 h3
    have hr : q.bus_read8 0xFF41 = some q.lcds_read := by
      norm_num [PPU.bus_read8, TILESET_START_ADDRESS, TILESET_END_ADDRESS,
        TILESET_RAM, TILEMAP_START_ADDRESS, TILEMAP_END_ADDRESS,
        OAM_START_ADDRESS, OAM_END_ADDRESS, OAM_RAM_SIZE, OAM_SPRITE_COUNT,
        OAM_SPRITE_SIZE, LCDC_ADDRESS, LCDS_ADDRESS]
    rw [hr, lcds_read_eq, h6, h5, h4, h3]
    have hlc : b2n q.line_compare < 2 := by cases q.line_compare <;> simp [b2n]
    have hm : q.mode.toNat < 4 := by cases q.mode <;> simp [Mode.toNat]
    rw [lcds_formula v hv (b2n q.line_compare) hlc q.mode.toNat hm]

/-- Concrete state used to witness C6: line_compare set, mode LCD_TRANSFER. -/
def c6p : PPU := { PPU.new with line_compare := true, mode := Mode.LCD_TRANSFER }

/-- Witness for C6 at v = 0xFF on c6p: the readback formula applies with the
current line_compare flag and mode. -/
theorem C6_witness :
    ∃ p2, c6p.bus_write8 0xFF41 0xFF = some p2 ∧
      p2 = { c6p with
              line_compare_is := Nat.testBit 0xFF 6, mode2_is := Nat.testBit 0xFF 5,
              mode1_is := Nat.testBit 0xFF 4, mode0_is := Nat.testBit 0xFF 3 } ∧
      (∀ q : PPU, q.line_compare_is = Nat.testBit 0xFF 6 → q.mode2_is = Nat.testBit 0xFF 5 →
        q.mode1_is = Nat.testBit 0xFF 4 → q.mode0_is = Nat.testBit 0xFF 3 →
        q.bus_read8 0xFF41 =
          some ((0xFF &&& 0x78) ||| (b2n q.line_compare <<< 2) ||| q.mode.toNat)) :=
  C6_lcds c6p 0xFF (by decide)

/-- Bit tests against the attribute masks of set_attrib_byte are testBits. -/
lemma attrib_testBits (v : Nat) :
    (v &&& 0x80 != 0) = v.testBit 7 ∧ (v &&& 0x40 != 0) = v.testBit 6 ∧
    (v &&& 0x20 != 0) = v.testBit 5 ∧ (v &&& 0x10 != 0) = v.testBit 4 := by
  have h7 := and_mask_ne_zero_eq_testBit v 7
  have h6 := and_mask_ne_zero_eq_testBit v 6
  have h5 := and_mask_ne_zero_eq_testBit v 5
  have h4 := and_mask_ne_zero_eq_testBit v 4
  norm_num at h7 h6 h5 h4
  exact ⟨h7, h6, h5, h4⟩

/-- Masking with 0b11 is mod 4. -/
lemma and_three_eq_mod_four (n : Nat) : n &&& 0b11 = n % 4 := by
  have h := Nat.and_pow_two_sub_one_eq_mod n 2
  norm_num at h
  exact h

/-- bus_write8 dispatches OAM-range addresses to sprite_write. -/
lemma bus_write8_oam (p : PPU) (v o : Nat) (ho : o ≤ 160) :
    p.bus_write8 (0xFE00 + o) v = p.sprite_write v (0xFE00 + o) := by
  unfold PPU.bus_write8
  rw [if_neg (by simp only [TILESET_START_ADDRESS, TILESET_END_ADDRESS, TILESET_RAM]; omega),
      if_neg (by simp only [TILEMAP_START_ADDRESS, TILEMAP_END_ADDRESS]; omega),
      if_pos (by simp only [OAM_START_ADDRESS, OAM_END_ADDRESS, OAM_RAM_SIZE,
        OAM_SPRITE_COUNT, OAM_SPRITE_SIZE]; omega)]

/-- bus_read8 dispatches OAM-range addresses to the raw sprite_data bytes. -/
lemma bus_read8_oam (p : PPU) (o : Nat) (ho : o ≤ 160) :
    p.bus_read8 (0xFE00 + o) = arrGet p.sprite_data OAM_RAM_SIZE o := by
  unfold PPU.bus_read8
  rw [if_neg (by simp only [TILESET_START_ADDRESS, TILESET_END_ADDRESS, TILESET_RAM]; omega),
      if_neg (by simp only [TILEMAP_START_ADDRESS, TILEMAP_END_ADDRESS]; omega),
      if_pos (by simp only [OAM_START_ADDRESS, OAM_END_ADDRESS, OAM_RAM_SIZE,
        OAM_SPRITE_COUNT, OAM_SPRITE_SIZE]; omega)]
  simp only [OAM_START_ADDRESS]
  rw [Nat.add_sub_cancel_left]

/-- Full characterisation of sprite_write at an in-range OAM offset o: the raw
byte at o is replaced, sprite o/4 has the field selected by o%4 updated, and
nothing else changes. -/
lemma sprite_write_spec (p : PPU) (d o : Nat) (ho : o < 160) :
    ∃ q, p.sprite_write d (0xFE00 + o) = some q ∧
      q = { p with sprites := q.sprites, sprite_data := q.sprite_data } ∧
      (∀ j, q.sprite_data j = if j = o then d else p.sprite_data j) ∧
      (∀ k, k ≠ o / 4 → q.sprites k = p.sprites k) ∧
      (o % 4 = 0 → q.sprites (o / 4) = { p.sprites (o / 4) with ypos := d }) ∧
      (o % 4 = 1 → q.sprites (o / 4) = { p.sprites (o / 4) with xpos := d }) ∧
      (o % 4 = 2 → q.sprites (o / 4) = { p.sprites (o / 4) with tile := d }) ∧
      (o % 4 = 3 → q.sprites (o / 4) = (p.sprites (o / 4)).set_attrib_byte d) := by
  have hindex : (0xFE00 + o - OAM_START_ADDRESS) / OAM_SPRITE_SIZE = o / 4 := by
    simp only [OAM_START_ADDRESS, OAM_SPRITE_SIZE]
    omega
  have hfield : (0xFE00 + o) &&& 0b11 = o % 4 := by
    rw [and_three_eq_mod_four]
    omega
  have hoff : 0xFE00 + o - OAM_START_ADDRESS = o := by
    simp only [OAM_START_ADDRESS]
    omega
  have hi4 : o / 4 < 40 := by omega
  unfold PPU.sprite_write
  rw [hindex, hfield, hoff]
  have ho4 : o % 4 = 0 ∨ o % 4 = 1 ∨ o % 4 = 2 ∨ o % 4 = 3 := by omega
  rcases ho4 with h4 | h4 | h4 | h4 <;>
    rw [h4] <;>
    simp only [arrModify, arrSet, OAM_SPRITE_COUNT, OAM_RAM_SIZE,
      OAM_SPRITE_SIZE, if_pos hi4, if_pos ho, Option.bind_eq_bind,
      Option.some_bind] <;>
    refine ⟨_, rfl, rfl, ?_, ?_, ?_, ?_, ?_, ?_⟩ <;>
    simp_all

/-- C5: a write to OAM address 0xFE00 + 4*i + f stores the raw byte (read back
by bus_read8) and updates exactly the decoded field selected by f: ypos for 0,
xpos for 1, tile for 2, and for f = 3 the four attribute booleans decoded from
bits 7..4; all other decoded sprites and all other raw OAM bytes are
unchanged. -/
theorem C5_sprite_write (p : PPU) (i f v : Nat)
    (hi : i < 40) (hf : f < 4) (hv : v < 256) :
    ∃ p2, p.bus_write8 (0xFE00 + (4 * i + f)) v = some p2 ∧
      p2.bus_read8 (0xFE00 + (4 * i + f)) = some v ∧
      (f = 0 → (p2.sprites i).ypos = v) ∧
      (f = 1 → (p2.sprites i).xpos = v) ∧
      (f = 2 → (p2.sprites i).tile = v) ∧
      (f = 3 → (p2.sprites i).behind_background = v.testBit 7 ∧
               (p2.sprites i).yflip = v.testBit 6 ∧
               (p2.sprites i).xflip = v.testBit 5 ∧
               (p2.sprites i).palette = v.testBit 4) ∧
      (∀ k, k ≠ i → p2.sprites k = p.sprites k) ∧
      (∀ j, j ≠ 4 * i + f → p2.sprite_data j = p.sprite_data j) := by
  have haddr : 4 * i + f < 160 := by omega
  obtain ⟨q, hq, hframe, hsd, hother, h0, h1, h2, h3⟩ :=
    sprite_write_spec p v (4 * i + f) haddr
  have hdiv : (4 * i + f) / 4 = i := by omega
  rw [hdiv] at hother h0 h1 h2 h3
  have hmod : (4 * i + f) % 4 = f := by omega
  rw [hmod] at h0 h1 h2 h3
  have hb := attrib_testBits v
  refine ⟨q, (bus_write8_oam p v (4 * i + f) (by omega)).trans hq, ?_,
    ?_, ?_, ?_, ?_, hother, ?_⟩
  · rw [bus_read8_oam q (4 * i + f) (by omega)]
    simp [arrGet, hsd, OAM_RAM_SIZE, OAM_SPRITE_COUNT, OAM_SPRITE_SIZE, haddr]
  · intro h
    rw [h0 h]
  · intro h
    rw [h1 h]
  · intro h
    rw [h2 h]
  · intro h
    rw [h3 h]
    unfold OamSprite.set_attrib_byte
    exact ⟨hb.1, hb.2.1, hb.2.2.1, hb.2.2.2⟩
  · intro j hj
    rw [hsd j, if_neg hj]

/-- Witness for C5 at the last sprite, attribute field, value 0xA0 (the
repository's own test_sprite_write fixture). -/
theorem C5_witness :
    ∃ p2, PPU.new.bus_write8 (0xFE00 + (4 * 39 + 3)) 0xA0 = some p2 ∧
      p2.bus_read8 (0xFE00 + (4 * 39 + 3)) = some 0xA0 ∧
      ((3 : Nat) = 0 → (p2.sprites 39).ypos = 0xA0) ∧
      ((3 : Nat) = 1 → (p2.sprites 39).xpos = 0xA0) ∧
      ((3 : Nat) = 2 → (p2.sprites 39).tile = 0xA0) ∧
      ((3 : Nat) = 3 → (p2.sprites 39).behind_background = Nat.testBit 0xA0 7 ∧
               (p2.sprites 39).yflip = Nat.testBit 0xA0 6 ∧
               (p2.sprites 39).xflip = Nat.testBit 0xA0 5 ∧
               (p2.sprites 39).palette = Nat.testBit 0xA0 4) ∧
      (∀ k, k ≠ 39 → p2.sprites k = PPU.new.sprites k) ∧
      (∀ j, j ≠ 4 * 39 + 3 → p2.sprite_data j = PPU.new.sprite_data j) :=
  C5_sprite_write PPU.new 39 3 0xA0 (by decide) (by decide) (by decide)

/-- Pointwise value of Tile::update_row: row y gets, in each column x < 8, the
plane bit selected by msb replaced with bit 7 - x of data; everything else is
untouched. -/
lemma update_row_pixel (t : Tile) (data y : Nat) (msb : Bool) (y' x' : Nat) :
    (t.update_row data y msb).pixel y' x' =
      if y' = y ∧ x' < 8 then
        (t.pixel y' x' &&& (0xFF ^^^ (1 <<< (if msb then 1 else 0)))) |||
          (((data >>> (7 - x')) &&& 1) <<< (if msb then 1 else 0))
      else t.pixel y' x' := by
  have hrev : (List.range 8).reverse = [7, 6, 5, 4, 3, 2, 1, 0] := by decide
  unfold Tile.update_row
  rw [hrev]
  simp only [List.foldl]
  by_cases hy : y' = y
  · subst hy
    by_cases hx : x' < 8
    · interval_cases x' <;>
        norm_num [← Nat.shiftRight_add]
    · have h0 : ¬(x' = 0) := by omega
      have h1 : ¬(x' = 1) := by omega
      have h2 : ¬(x' = 2) := by omega
      have h3 : ¬(x' = 3) := by omega
      have h4 : ¬(x' = 4) := by omega
      have h5 : ¬(x' = 5) := by omega
      have h6 : ¬(x' = 6) := by omega
      have h7 : ¬(x' = 7) := by omega
      simp [hx, h0, h1, h2, h3, h4, h5, h6, h7]
  · norm_num [hy]

/-- Setting one plane bit of a pixel: the selected plane bit becomes b and the
other plane bit is preserved. -/
lemma plane_bits (old b : Nat) (hb : b < 2) (msb : Bool) :
    ((((old &&& (0xFF ^^^ (1 <<< (if msb then 1 else 0)))) |||
        (b <<< (if msb then 1 else 0))) >>> (if msb then 1 else 0)) &&& 1 = b) ∧
    ((((old &&& (0xFF ^^^ (1 <<< (if msb then 1 else 0)))) |||
        (b <<< (if msb then 1 else 0))) >>> (if msb then 0 else 1)) &&& 1
      = (old >>> (if msb then 0 else 1)) &&& 1) := by
  have hb2 : b = 0 ∨ b = 1 := by omega
  cases msb
  · rcases hb2 with rfl | rfl
    · constructor
      · show (old &&& 254 ||| 0) &&& 1 = 0
        rw [Nat.or_zero, Nat.and_assoc, show (254 &&& 1 : Nat) = 0 from rfl, Nat.and_zero]
      · show (old &&& 254 ||| 0) >>> 1 &&& 1 = old >>> 1 &&& 1
        rw [Nat.or_zero, extract_bit, extract_bit]
        congr 1
        rw [Nat.testBit_and, show Nat.testBit 254 1 = true from rfl, Bool.and_true]
    · constructor
      · show (old &&& 254 ||| 1) &&& 1 = 1
        rw [Nat.and_distrib_right, Nat.and_assoc, show (254 &&& 1 : Nat) = 0 from rfl,
          Nat.and_zero, show (1 &&& 1 : Nat) = 1 from rfl, Nat.zero_or]
      · show (old &&& 254 ||| 1) >>> 1 &&& 1 = old >>> 1 &&& 1
        rw [extract_bit, extract_bit]
        congr 1
        rw [Nat.testBit_or, Nat.testBit_and, show Nat.testBit 254 1 = true from rfl,
          show Nat.testBit 1 1 = false from rfl, Bool.and_true, Bool.or_false]
  · rcases hb2 with rfl | rfl
    · constructor
      · show (old &&& 253 ||| 0) >>> 1 &&& 1 = 0
        rw [Nat.or_zero, extract_bit, Nat.testBit_and,
          show Nat.testBit 253 1 = false from rfl, Bool.and_false]
        rfl
      · show (old &&& 253 ||| 0) &&& 1 = old &&& 1
        rw [Nat.or_zero, Nat.and_assoc, show (253 &&& 1 : Nat) = 1 from rfl]
    · constructor
      · show (old &&& 253 ||| 2) >>> 1 &&& 1 = 1
        rw [extract_bit, Nat.testBit_or, Nat.testBit_and,
          show Nat.testBit 253 1 = false from rfl, show Nat.testBit 2 1 = true from rfl,
          Bool.and_false, Bool.false_or]
        rfl
      · show (old &&& 253 ||| 2) &&& 1 = old &&& 1
        rw [Nat.and_distrib_right, Nat.and_assoc, show (253 &&& 1 : Nat) = 1 from rfl,
          show (2 &&& 1 : Nat) = 0 from rfl, Nat.or_zero]

/-- C4 helper: bus_write8 dispatches tile-RAM addresses to tile_write. -/
lemma bus_write8_tileset (p : PPU) (v a : Nat) (ha1 : 0x8000 ≤ a) (ha2 : a ≤ 0x97FF) :
    p.bus_write8 a v = p.tile_write v a := by
  unfold PPU.bus_write8
  rw [if_pos (by simp only [TILESET_START_ADDRESS, TILESET_END_ADDRESS, TILESET_RAM]; omega)]

/-- C4 helper: bus_read8 returns the raw tile byte for tile-RAM addresses. -/
lemma bus_read8_tileset (p : PPU) (a : Nat) (ha1 : 0x8000 ≤ a) (ha2 : a ≤ 0x97FF) :
    p.bus_read8 a = arrGet p.tile_data TILESET_RAM (a - TILESET_START_ADDRESS) := by
  unfold PPU.bus_read8
  rw [if_pos (by simp only [TILESET_START_ADDRESS, TILESET_END_ADDRESS, TILESET_RAM]; omega)]

/-- Full characterisation of tile_write at an in-range tile-RAM address. -/
lemma tile_write_spec (p : PPU) (d a : Nat) (ha1 : 0x8000 ≤ a) (ha2 : a ≤ 0x97FF) :
    ∃ q, p.tile_write d a = some q ∧
      q = { p with tile_data := q.tile_data, tiles := q.tiles } ∧
      (∀ j, q.tile_data j = if j = a - 0x8000 then d else p.tile_data j) ∧
      (∀ t, t ≠ (a - 0x8000) / 16 → q.tiles t = p.tiles t) ∧
      q.tiles ((a - 0x8000) / 16)
        = (p.tiles ((a - 0x8000) / 16)).update_row d ((a >>> 1) &&& 0x7) (a &&& 0x01 != 0) := by
  unfold PPU.tile_write
  simp only [TILESET_START_ADDRESS, TILESET_COUNT, TILE_SIZE, TILESET_RAM]
  rw [arrSet, arrModify, if_pos (by omega), if_pos (by omega)]
  simp only [Option.bind_eq_bind, Option.some_bind]
  refine ⟨_, rfl, rfl, ?_, ?_, ?_⟩
  · intro j
    rfl
  · intro t ht
    simp [ht]
  · simp

/-- The 16-byte tile fixture from spec §8 S1 (also the repository's own
test_tile_write test data). -/
def s1_bytes : List Nat :=
  [0x7C, 0x7C, 0x00, 0xC6, 0xC6, 0x00, 0x00, 0xFE,
   0xC6, 0xC6, 0x00, 0xC6, 0xC6, 0x00, 0x00, 0x00]

/-- The expected decoded 8x8 pattern from spec §8 S1. -/
def s1_expected : List (List Nat) :=
  [[0, 3, 3, 3, 3, 3, 0, 0],
   [2, 2, 0, 0, 0, 2, 2, 0],
   [1, 1, 0, 0, 0, 1, 1, 0],
   [2, 2, 2, 2, 2, 2, 2, 0],
   [3, 3, 0, 0, 0, 3, 3, 0],
   [2, 2, 0, 0, 0, 2, 2, 0],
   [1, 1, 0, 0, 0, 1, 1, 0],
   [0, 0, 0, 0, 0, 0, 0, 0]]

/-- Write a list of bytes to consecutive PPU addresses (the loop the
repository's tests use to load tile data). -/
def write_bytes (p : PPU) (addr : Nat) : List Nat → Option PPU
  | [] => some p
  | b :: r => (p.bus_write8 addr b).bind (fun q => write_bytes q (addr + 1) r)

set_option maxRecDepth 8000 in
/-- C4: a write of byte v to tile-RAM address a stores the raw byte (read back
by bus_read8) and updates the decoded tile (a - 0x8000)/16 in row (a >> 1) & 7
only: each column c < 8 has the plane bit selected by a & 1 set to bit 7 - c
of v while the other plane bit is preserved; other rows and other tiles are
unchanged.  Writing the 16 fixture bytes at 0x8000 decodes tile 0 to the §8 S1
pattern. -/
theorem C4_tile_write (p : PPU) (a v : Nat)
    (ha1 : 0x8000 ≤ a) (ha2 : a ≤ 0x97FF) (hv : v < 256) :
    ∃ p2, p.bus_write8 a v = some p2 ∧
      p2.bus_read8 a = some v ∧
      (∀ c, c < 8 →
        (((p2.tiles ((a - 0x8000) / 16)).pixel ((a >>> 1) &&& 7) c >>>
            (if a &&& 1 != 0 then 1 else 0)) &&& 1 = (v >>> (7 - c)) &&& 1) ∧
        (((p2.tiles ((a - 0x8000) / 16)).pixel ((a >>> 1) &&& 7) c >>>
            (if a &&& 1 != 0 then 0 else 1)) &&& 1
          = ((p.tiles ((a - 0x8000) / 16)).pixel ((a >>> 1) &&& 7) c >>>
            (if a &&& 1 != 0 then 0 else 1)) &&& 1)) ∧
      (∀ y x, y ≠ (a >>> 1) &&& 7 →
        (p2.tiles ((a - 0x8000) / 16)).pixel y x
          = (p.tiles ((a - 0x8000) / 16)).pixel y x) ∧
      (∀ t, t ≠ (a - 0x8000) / 16 → p2.tiles t = p.tiles t) ∧
      (∀ j, j ≠ a - 0x8000 → p2.tile_data j = p.tile_data j) ∧
      (∀ y, y < 8 → ∀ x, x < 8 →
        (write_bytes PPU.new 0x8000 s1_bytes).map (fun q => (q.tiles 0).pixel y x)
          = some ((s1_expected.getD y []).getD x 0)) := by
  obtain ⟨q, hq, hframe, htd, hot, hti⟩ := tile_write_spec p v a ha1 ha2
  refine ⟨q, (bus_write8_tileset p v a ha1 ha2).trans hq, ?_, ?_, ?_, hot, ?_, ?_⟩
  · rw [bus_read8_tileset q a ha1 ha2]
    simp only [TILESET_START_ADDRESS, TILESET_RAM]
    rw [arrGet, if_pos (by omega), htd]
    simp
  · intro c hc
    rw [hti, update_row_pixel, if_pos ⟨rfl, hc⟩]
    have hb : (v >>> (7 - c)) &&& 1 < 2 := by
      rw [Nat.and_one_is_mod]
      omega
    exact plane_bits ((p.tiles ((a - 0x8000) / 16)).pixel ((a >>> 1) &&& 7) c)
      ((v >>> (7 - c)) &&& 1) hb (a &&& 1 != 0)
  · intro y x hy
    rw [hti, update_row_pixel, if_neg (fun h => hy h.1)]
  · intro j hj
    rw [htd j, if_neg hj]
  · decide

/-- The decoded value of sprite base/4 after the first n bytes of a DMA
transfer reading byte j from g j: each of the four fields is updated once its
byte offset has been copied. -/
def dmaSprite (orig : OamSprite) (g : Nat → Nat) (base n : Nat) : OamSprite :=
  let s := if base < n then { orig with ypos := g base } else orig
  let s := if base + 1 < n then { s with xpos := g (base + 1) } else s
  let s := if base + 2 < n then { s with tile := g (base + 2) } else s
  if base + 3 < n then s.set_attrib_byte (g (base + 3)) else s

/-- The first n steps of the dma_transfer loop. -/
def dma_fold (p : PPU) (bus : Nat → Nat) (address : Nat) (n : Nat) : Option PPU :=
  (List.range n).foldlM
    (fun q x => q.sprite_write (bus (address + x)) (0xFE00 + x)) p

lemma dma_transfer_eq_fold (p : PPU) (bus : Nat → Nat) :
    p.dma_transfer bus = dma_fold p bus p.oam_dma_src 160 := rfl

/-- dmaSprite is unchanged by a step that touches a different sprite. -/
lemma dmaSprite_stable (orig : OamSprite) (g : Nat → Nat) (i n : Nat)
    (h : i ≠ n / 4) :
    dmaSprite orig g (4 * i) (n + 1) = dmaSprite orig g (4 * i) n := by
  have e0 : (4 * i < n + 1) = (4 * i < n) := propext (by omega)
  have e1 : (4 * i + 1 < n + 1) = (4 * i + 1 < n) := propext (by omega)
  have e2 : (4 * i + 2 < n + 1) = (4 * i + 2 < n) := propext (by omega)
  have e3 : (4 * i + 3 < n + 1) = (4 * i + 3 < n) := propext (by omega)
  unfold dmaSprite
  simp only [e0, e1, e2, e3]

/-- Running the first n bytes of the transfer loop succeeds and yields: frame
equality outside OAM, raw bytes below n replaced by the bus bytes, and every
decoded sprite equal to its dmaSprite stage. -/
lemma dma_fold_spec (p : PPU) (bus : Nat → Nat) (address : Nat) :
    ∀ n, n ≤ 160 →
    ∃ q, dma_fold p bus address n = some q ∧
      q = { p with sprites := q.sprites, sprite_data := q.sprite_data } ∧
      (∀ j, q.sprite_data j = if j < n then bus (address + j) else p.sprite_data j) ∧
      (∀ i, q.sprites i = dmaSprite (p.sprites i) (fun j => bus (address + j)) (4 * i) n) := by
  intro n
  induction n with
  | zero =>
    intro _
    refine ⟨p, rfl, rfl, ?_, ?_⟩
    · intro j
      simp
    · intro i
      simp [dmaSprite]
  | succ n ih =>
    intro hn
    obtain ⟨q, hq, hframe, hsd, hsp⟩ := ih (by omega)
    obtain ⟨q2, hq2, hframe2, hsd2, hother2, h0, h1, h2, h3⟩ :=
      sprite_write_spec q (bus (address + n)) n (by omega)
    refine ⟨q2, ?_, ?_, ?_, ?_⟩
    · unfold dma_fold at hq ⊢
      rw [List.range_succ, List.foldlM_append, hq]
      simp only [Option.bind_eq_bind, Option.some_bind, List.foldlM_cons,
        List.foldlM_nil, hq2]
      rfl
    · rw [hframe2, hframe]
    · intro j
      rw [hsd2 j]
      by_cases hj : j = n
      · subst hj
        rw [if_pos rfl, if_pos (by omega : j < j + 1)]
      · rw [if_neg hj, hsd j]
        by_cases hjn : j < n
        · rw [if_pos hjn, if_pos (by omega)]
        · rw [if_neg hjn, if_neg (by omega)]
    · intro i
      by_cases hi : i = n / 4
      · subst hi
        have hc4 : n % 4 = 0 ∨ n % 4 = 1 ∨ n % 4 = 2 ∨ n % 4 = 3 := by omega
        rcases hc4 with hc | hc | hc | hc
        · rw [h0 hc, hsp (n / 4)]
          simp only [dmaSprite]
          rw [if_neg (show ¬ 4 * (n / 4) < n by omega),
            if_neg (show ¬ 4 * (n / 4) + 1 < n by omega),
            if_neg (show ¬ 4 * (n / 4) + 2 < n by omega),
            if_neg (show ¬ 4 * (n / 4) + 3 < n by omega),
            if_pos (show 4 * (n / 4) < n + 1 by omega),
            if_neg (show ¬ 4 * (n / 4) + 1 < n + 1 by omega),
            if_neg (show ¬ 4 * (n / 4) + 2 < n + 1 by omega),
            if_neg (show ¬ 4 * (n / 4) + 3 < n + 1 by omega),
            show 4 * (n / 4) = n from by omega]
        · rw [h1 hc, hsp (n / 4)]
          simp only [dmaSprite]
          rw [if_pos (show 4 * (n / 4) < n by omega),
            if_neg (show ¬ 4 * (n / 4) + 1 < n by omega),
            if_neg (show ¬ 4 * (n / 4) + 2 < n by omega),
            if_neg (show ¬ 4 * (n / 4) + 3 < n by omega),
            if_pos (show 4 * (n / 4) < n + 1 by omega),
            if_pos (show 4 * (n / 4) + 1 < n + 1 by omega),
            if_neg (show ¬ 4 * (n / 4) + 2 < n + 1 by omega),
            if_neg (show ¬ 4 * (n / 4) + 3 < n + 1 by omega),
            show 4 * (n / 4) + 1 = n from by omega]
        · rw [h2 hc, hsp (n / 4)]
          simp only [dmaSprite]
          rw [if_pos (show 4 * (n / 4) < n by omega),
            if_pos (show 4 * (n / 4) + 1 < n by omega),
            if_neg (show ¬ 4 * (n / 4) + 2 < n by omega),
            if_neg (show ¬ 4 * (n / 4) + 3 < n by omega),
            if_pos (show 4 * (n / 4) < n + 1 by omega),
            if_pos (show 4 * (n / 4) + 1 < n + 1 by omega),
            if_pos (show 4 * (n / 4) + 2 < n + 1 by omega),
            if_neg (show ¬ 4 * (n / 4) + 3 < n + 1 by omega),
            show 4 * (n / 4) + 2 = n from by omega]
        · rw [h3 hc, hsp (n / 4)]
          simp only [dmaSprite]
          rw [if_pos (show 4 * (n / 4) < n by omega),
            if_pos (show 4 * (n / 4) + 1 < n by omega),
            if_pos (show 4 * (n / 4) + 2 < n by omega),
            if_neg (show ¬ 4 * (n / 4) + 3 < n by omega),
            if_pos (show 4 * (n / 4) < n + 1 by omega),
            if_pos (show 4 * (n / 4) + 1 < n + 1 by omega),
            if_pos (show 4 * (n / 4) + 2 < n + 1 by omega),
            if_pos (show 4 * (n / 4) + 3 < n + 1 by omega),
            show 4 * (n / 4) + 3 = n from by omega]
      · rw [hother2 i hi, hsp i, dmaSprite_stable (p.sprites i) _ i n hi]

/-- Full characterisation of update_dma: it always succeeds, changes only the
DMA tick count and (when a freshly staged transfer fires) the OAM arrays, and
decrements oam_dma_ticks by ticks, saturating at zero. -/
lemma update_dma_spec (p : PPU) (ticks : Nat) (bus : Nat → Nat) :
    ∃ q, p.update_dma ticks bus = some q ∧
      q = { p with sprites := q.sprites, sprite_data := q.sprite_data,
                   oam_dma_ticks := q.oam_dma_ticks } ∧
      q.oam_dma_ticks
        = (if ticks < p.oam_dma_ticks then p.oam_dma_ticks - ticks % 256 else 0) ∧
      (p.oam_dma_ticks ≠ 160 → q.sprites = p.sprites ∧ q.sprite_data = p.sprite_data) ∧
      (p.oam_dma_ticks = 160 →
        (∀ j, j < 160 → q.sprite_data j = bus (p.oam_dma_src + j)) ∧
        (∀ j, 160 ≤ j → q.sprite_data j = p.sprite_data j) ∧
        (∀ i, i < 40 → q.sprites i = OamSprite.set_attrib_byte
          { p.sprites i with
            ypos := bus (p.oam_dma_src + 4 * i),
            xpos := bus (p.oam_dma_src + (4 * i + 1)),
            tile := bus (p.oam_dma_src + (4 * i + 2)) }
          (bus (p.oam_dma_src + (4 * i + 3))))) := by
  unfold PPU.update_dma
  simp only [OAM_DMA_TRANSFER_TICKS]
  by_cases h0 : p.oam_dma_ticks > 0
  · rw [if_pos h0]
    by_cases h160 : p.oam_dma_ticks = 160
    · rw [if_pos h160, dma_transfer_eq_fold]
      obtain ⟨q, hq, hframe, hsd, hsp⟩ := dma_fold_spec p bus p.oam_dma_src 160 (by omega)
      rw [hq]
      simp only [Option.bind_eq_bind, Option.some_bind]
      have hqo : q.oam_dma_ticks = p.oam_dma_ticks := by rw [hframe]
      have hfull : ∀ i, i < 40 →
          q.sprites i = OamSprite.set_attrib_byte
            { p.sprites i with
              ypos := bus (p.oam_dma_src + 4 * i),
              xpos := bus (p.oam_dma_src + (4 * i + 1)),
              tile := bus (p.oam_dma_src + (4 * i + 2)) }
            (bus (p.oam_dma_src + (4 * i + 3))) := by
        intro i hi
        rw [hsp i]
        simp only [dmaSprite]
        rw [if_pos (show 4 * i < 160 by omega),
          if_pos (show 4 * i + 1 < 160 by omega),
          if_pos (show 4 * i + 2 < 160 by omega),
          if_pos (show 4 * i + 3 < 160 by omega)]
      by_cases hlt : ticks < p.oam_dma_ticks
      · rw [if_pos (show ticks < q.oam_dma_ticks by omega)]
        refine ⟨_, rfl, ?_, ?_, fun h => absurd h160 h, fun _ => ⟨?_, ?_, hfull⟩⟩
        · show ({ q with oam_dma_ticks := q.oam_dma_ticks - ticks % 256 } : PPU)
            = { p with sprites := q.sprites, sprite_data := q.sprite_data,
                       oam_dma_ticks := q.oam_dma_ticks - ticks % 256 }
          rw [hframe]
        · show q.oam_dma_ticks - ticks % 256 = _
          rw [if_pos hlt, hqo]
        · intro j hj
          show q.sprite_data j = _
          rw [hsd j, if_pos hj]
        · intro j hj
          show q.sprite_data j = _
          rw [hsd j, if_neg (by omega)]
      · rw [if_neg (show ¬ ticks < q.oam_dma_ticks by omega)]
        refine ⟨_, rfl, ?_, ?_, fun h => absurd h160 h, fun _ => ⟨?_, ?_, hfull⟩⟩
        · show ({ q with oam_dma_ticks := 0 } : PPU)
            = { p with sprites := q.sprites, sprite_data := q.sprite_data,
                       oam_dma_ticks := 0 }
          rw [hframe]
        · show (0 : Nat) = _
          rw [if_neg hlt]
        · intro j hj
          show q.sprite_data j = _
          rw [hsd j, if_pos hj]
        · intro j hj
          show q.sprite_data j = _
          rw [hsd j, if_neg (by omega)]
    · rw [if_neg h160]
      simp only [Option.bind_eq_bind, Option.some_bind]
      by_cases hlt : ticks < p.oam_dma_ticks
      · rw [if_pos hlt]
        refine ⟨_, rfl, rfl, ?_, fun _ => ⟨rfl, rfl⟩, fun h => absurd h h160⟩
        show p.oam_dma_ticks - ticks % 256 = _
        rw [if_pos hlt]
      · rw [if_neg hlt]
        refine ⟨_, rfl, rfl, ?_, fun _ => ⟨rfl, rfl⟩, fun h => absurd h h160⟩
        show (0 : Nat) = _
        rw [if_neg hlt]
  · rw [if_neg h0]
    have hz : p.oam_dma_ticks = 0 := by omega
    refine ⟨p, rfl, rfl, ?_, fun _ => ⟨rfl, rfl⟩, fun h => absurd (h ▸ hz) (by norm_num)⟩
    rw [hz]
    simp

/-- The line-advance block changes only tick_counter, line_y, line_compare and
mode. -/
lemma line_advance_frame (p : PPU) (i : IS) :
    (p.ppu_line_advance i).1
      = { p with tick_counter := (p.ppu_line_advance i).1.tick_counter,
                 line_y := (p.ppu_line_advance i).1.line_y,
                 line_compare := (p.ppu_line_advance i).1.line_compare,
                 mode := (p.ppu_line_advance i).1.mode } := by
  simp only [PPU.ppu_line_advance]
  split_ifs <;> rfl

/-- The mode-reclassification block changes only mode. -/
lemma mode_update_frame (p : PPU) (i : IS) :
    (p.ppu_mode_update i).1 = { p with mode := (p.ppu_mode_update i).1.mode } := by
  simp only [PPU.ppu_mode_update]
  split_ifs <;> rfl

/-- When no full line has expired, the line-advance block is the identity. -/
lemma line_advance_skip (p : PPU) (i : IS) (h : ¬ LCD_TICKS_PER_LINE ≤ p.tick_counter) :
    p.ppu_line_advance i = (p, i) := by
  unfold PPU.ppu_line_advance
  rw [if_neg h]

/-- Behaviour of the line-advance block when a line has expired: the tick
counter is corrected, line_y advances (wrapping past 153 to 0 with mode
SPRITE_SEARCH), line_compare is recomputed against the new line, VBLANK is
entered exactly when the new line is 144 (requesting V-blank then, plus
LCD-STAT when mode1_is), and LCD-STAT is requested for a line-compare match
when line_compare_is. -/
lemma line_advance_char (p : PPU) (i : IS) (h : LCD_TICKS_PER_LINE ≤ p.tick_counter) :
    ((p.ppu_line_advance i).1.tick_counter = p.tick_counter - 456) ∧
    ((p.ppu_line_advance i).1.line_y
       = if 153 < (p.line_y + 1) % 256 then 0 else (p.line_y + 1) % 256) ∧
    ((p.ppu_line_advance i).1.line_compare
       = (p.line_compare_value == (p.line_y + 1) % 256)) ∧
    ((p.ppu_line_advance i).1.mode
       = if (p.line_y + 1) % 256 = 144 then Mode.VBLANK
         else if 153 < (p.line_y + 1) % 256 then Mode.SPRITE_SEARCH else p.mode) ∧
    ((p.ppu_line_advance i).2.vblank
       = if (p.line_y + 1) % 256 = 144 then i.vblank + 1 else i.vblank) ∧
    ((p.ppu_line_advance i).2.lcdstat
       = i.lcdstat
         + (if (p.line_compare_value == (p.line_y + 1) % 256) = true ∧
              p.line_compare_is = true then 1 else 0)
         + (if (p.line_y + 1) % 256 = 144 ∧ p.mode1_is = true then 1 else 0)) := by
  unfold PPU.ppu_line_advance
  rw [if_pos h]
  simp only [LCD_TICKS_PER_LINE, LCD_LINE_VBLANK_START, LCD_LINE_VBLANK_END,
    IS.request_lcdstat, IS.request_vblank]
  by_cases h144 : (p.line_y + 1) % 256 = 144 <;>
    by_cases hwrap : 153 < (p.line_y + 1) % 256 <;>
    by_cases hlc : (p.line_compare_value == (p.line_y + 1) % 256) = true <;>
    by_cases hlcis : p.line_compare_is = true <;>
    by_cases hm1 : p.mode1_is = true <;>
    simp_all [apply_ite]

/-- Behaviour of the mode-reclassification block: when line_y < 144, the mode
is classified from tick_counter, and LCD-STAT is requested exactly on a change
into SPRITE_SEARCH with mode2_is or into HBLANK with mode0_is; no request is
made on entry to LCD_TRANSFER or when the mode is unchanged. -/
lemma mode_update_char (p : PPU) (i : IS) :
    ((p.ppu_mode_update i).1.mode
       = if p.line_y < 144 then
           (if p.tick_counter ≤ 79 then Mode.SPRITE_SEARCH
            else if p.tick_counter ≤ 251 then Mode.LCD_TRANSFER else Mode.HBLANK)
         else p.mode) ∧
    ((p.ppu_mode_update i).2.vblank = i.vblank) ∧
    ((p.ppu_mode_update i).2.lcdstat
       = i.lcdstat +
         (if hy : p.line_y < 144 then
            (let nm := if p.tick_counter ≤ 79 then Mode.SPRITE_SEARCH
                       else if p.tick_counter ≤ 251 then Mode.LCD_TRANSFER
                       else Mode.HBLANK
             if nm ≠ p.mode ∧ ((nm = Mode.SPRITE_SEARCH ∧ p.mode2_is = true) ∨
                 (nm = Mode.HBLANK ∧ p.mode0_is = true)) then 1 else 0)
          else 0)) := by
  unfold PPU.ppu_mode_update
  simp only [LCD_LINE_VBLANK_START, IS.request_lcdstat]
  by_cases hy : p.line_y < 144
  · simp only [if_pos hy, dif_pos hy]
    by_cases h79 : p.tick_counter ≤ 79
    · simp only [if_pos h79]
      by_cases hne : Mode.SPRITE_SEARCH ≠ p.mode
      · rw [if_pos hne]
        by_cases h2 : p.mode2_is = true <;> simp_all
      · rw [if_neg hne]
        simp_all
    · simp only [if_neg h79]
      by_cases h251 : p.tick_counter ≤ 251
      · simp only [if_pos h251]
        by_cases hne : Mode.LCD_TRANSFER ≠ p.mode
        · rw [if_pos hne]
          simp_all
        · rw [if_neg hne]
          simp_all
      · simp only [if_neg h251]
        by_cases hne : Mode.HBLANK ≠ p.mode
        · rw [if_pos hne]
          by_cases h0 : p.mode0_is = true <;> simp_all
        · rw [if_neg hne]
          simp_all
  · simp only [if_neg hy, dif_neg hy]
    simp

/-- execute_ticks always succeeds; it runs update_dma and the LCD phases
never touch the OAM arrays or the DMA registers; with the LCD disabled the
result is exactly the update_dma state with the interrupt sink untouched. -/
lemma execute_ticks_spec (p : PPU) (ticks : Nat) (bus : Nat → Nat) (i : IS) :
    ∃ q1 r, p.update_dma ticks bus = some q1 ∧
      p.execute_ticks ticks bus i = some r ∧
      r.1.sprites = q1.sprites ∧ r.1.sprite_data = q1.sprite_data ∧
      r.1.oam_dma_ticks = q1.oam_dma_ticks ∧ r.1.oam_dma_src = q1.oam_dma_src ∧
      (p.lcd_enabled = false → r = (q1, i)) := by
  obtain ⟨q1, hq, hframe, hticks, hnt, ht⟩ := update_dma_spec p ticks bus
  have hlcd : q1.lcd_enabled = p.lcd_enabled := by rw [hframe]
  by_cases hl : q1.lcd_enabled = true
  · refine ⟨q1, ((q1.tick_add ticks).ppu_line_advance i).1.ppu_mode_update
      ((q1.tick_add ticks).ppu_line_advance i).2, hq, ?_, ?_, ?_, ?_, ?_, ?_⟩
    · unfold PPU.execute_ticks
      rw [hq]
      simp only [hl, if_true]
    · rw [mode_update_frame, line_advance_frame]
      rfl
    · rw [mode_update_frame, line_advance_frame]
      rfl
    · rw [mode_update_frame, line_advance_frame]
      rfl
    · rw [mode_update_frame, line_advance_frame]
      rfl
    · intro hfalse
      rw [hlcd] at hl
      rw [hfalse] at hl
      exact absurd hl (by simp)
  · refine ⟨q1, (q1, i), hq, ?_, rfl, rfl, rfl, rfl, fun _ => rfl⟩
    unfold PPU.execute_ticks
    rw [hq]
    simp only [hl, if_false]
    simp [hl]

/-- C7: with the LCD disabled, execute_ticks leaves line_y, tick_counter,
mode, line_compare and all tile, tile-map and register state unchanged and
makes no interrupt request (the sink is returned untouched); the only changes
are the DMA tick count, decremented by min(n, oam_dma_ticks), and, when a
freshly staged transfer fires (oam_dma_ticks = 160), the OAM contents written
by the transfer. -/
theorem C7_lcd_disabled (p : PPU) (n : Nat) (bus : Nat → Nat) (i : IS)
    (hlcd : p.lcd_enabled = false) (hoam : p.oam_dma_ticks < 256) :
    ∃ q, p.update_dma n bus = some q ∧ p.execute_ticks n bus i = some (q, i) ∧
      q.line_y = p.line_y ∧ q.tick_counter = p.tick_counter ∧ q.mode = p.mode ∧
      q.line_compare = p.line_compare ∧
      q.tiles = p.tiles ∧ q.tile_data = p.tile_data ∧ q.tilemaps = p.tilemaps ∧
      q.lcdc = p.lcdc ∧ q.lcd_enabled = false ∧
      q.scroll_x = p.scroll_x ∧ q.scroll_y = p.scroll_y ∧
      q.line_compare_value = p.line_compare_value ∧
      q.window_x = p.window_x ∧ q.window_y = p.window_y ∧
      q.bg_palette = p.bg_palette ∧ q.obj_palette1 = p.obj_palette1 ∧
      q.obj_palette2 = p.obj_palette2 ∧
      q.line_compare_is = p.line_compare_is ∧ q.mode0_is = p.mode0_is ∧
      q.mode1_is = p.mode1_is ∧ q.mode2_is = p.mode2_is ∧
      q.oam_dma_src = p.oam_dma_src ∧
      q.oam_dma_ticks = p.oam_dma_ticks - min n p.oam_dma_ticks ∧
      (p.oam_dma_ticks ≠ 160 → q.sprites = p.sprites ∧ q.sprite_data = p.sprite_data) := by
  obtain ⟨q1, r, hq, hex, _, _, _, _, hdis⟩ := execute_ticks_spec p n bus i
  obtain ⟨q, hq2, hframe, hticks, hnt, ht⟩ := update_dma_spec p n bus
  have hqq : q = q1 := Option.some.inj (hq2.symm.trans hq)
  subst hqq
  rw [hdis hlcd] at hex
  refine ⟨q, hq, hex, ?_, ?_, ?_, ?_, ?_, ?_, ?_, ?_, ?_, ?_, ?_, ?_, ?_, ?_,
    ?_, ?_, ?_, ?_, ?_, ?_, ?_, ?_, ?_, hnt⟩ <;>
    first
    | (rw [hticks]; split_ifs with h <;> omega)
    | (rw [hframe]; exact hlcd)
    | (rw [hframe])

/-- Witness for C7 on the reset state with 5 ticks. -/
theorem C7_witness :
    ∃ q, PPU.new.update_dma 5 (fun _ => 0) = some q ∧
      PPU.new.execute_ticks 5 (fun _ => 0) IS.new = some (q, IS.new) ∧
      q.line_y = PPU.new.line_y ∧ q.tick_counter = PPU.new.tick_counter ∧
      q.mode = PPU.new.mode ∧
      q.line_compare = PPU.new.line_compare ∧
      q.tiles = PPU.new.tiles ∧ q.tile_data = PPU.new.tile_data ∧
      q.tilemaps = PPU.new.tilemaps ∧
      q.lcdc = PPU.new.lcdc ∧ q.lcd_enabled = false ∧
      q.scroll_x = PPU.new.scroll_x ∧ q.scroll_y = PPU.new.scroll_y ∧
      q.line_compare_value = PPU.new.line_compare_value ∧
      q.window_x = PPU.new.window_x ∧ q.window_y = PPU.new.window_y ∧
      q.bg_palette = PPU.new.bg_palette ∧ q.obj_palette1 = PPU.new.obj_palette1 ∧
      q.obj_palette2 = PPU.new.obj_palette2 ∧
      q.line_compare_is = PPU.new.line_compare_is ∧ q.mode0_is = PPU.new.mode0_is ∧
      q.mode1_is = PPU.new.mode1_is ∧ q.mode2_is = PPU.new.mode2_is ∧
      q.oam_dma_src = PPU.new.oam_dma_src ∧
      q.oam_dma_ticks = PPU.new.oam_dma_ticks - min 5 PPU.new.oam_dma_ticks ∧
      (PPU.new.oam_dma_ticks ≠ 160 →
        q.sprites = PPU.new.sprites ∧ q.sprite_data = PPU.new.sprite_data) :=
  C7_lcd_disabled PPU.new 5 (fun _ => 0) IS.new rfl (by decide)

/-- C3: writing v to 0xFF46 stages a DMA transfer (source v << 8, 160 ticks)
without touching OAM, and reading 0xFF46 back yields v; the next execute_ticks
call, for any tick count n ≥ 1 and regardless of lcd_enabled, copies all 160
bytes bus(v << 8 + x) into OAM through the per-byte sprite_write path, leaving
the decoded sprite mirror coherent with the copied bytes, and leaves
oam_dma_ticks = 160 - min n 160; in general every execute_ticks(m) with
oam_dma_ticks > 0 subtracts min(m, oam_dma_ticks), and reading 0xFF46 returns
the high byte of oam_dma_src. -/
theorem C3_oam_dma (p : PPU) (v n : Nat) (bus : Nat → Nat) (i : IS)
    (hv : v < 256) (hn1 : 1 ≤ n) (hn2 : n < 65536) :
    ∃ p2, p.bus_write8 0xFF46 v = some p2 ∧
      p2.oam_dma_src = v <<< 8 ∧ p2.oam_dma_ticks = 160 ∧
      p2.sprites = p.sprites ∧ p2.sprite_data = p.sprite_data ∧
      p2.bus_read8 0xFF46 = some v ∧
      (∃ r : PPU × IS, p2.execute_ticks n bus i = some r ∧
        (∀ j, j < 160 → r.1.sprite_data j = bus (v <<< 8 + j)) ∧
        (∀ k, k < 40 → r.1.sprites k = OamSprite.set_attrib_byte
          { p.sprites k with
            ypos := bus (v <<< 8 + 4 * k),
            xpos := bus (v <<< 8 + (4 * k + 1)),
            tile := bus (v <<< 8 + (4 * k + 2)) }
          (bus (v <<< 8 + (4 * k + 3)))) ∧
        r.1.oam_dma_ticks = 160 - min n 160) ∧
      (∀ q : PPU, ∀ m : Nat, 0 < q.oam_dma_ticks → q.oam_dma_ticks < 256 →
        ∃ r2 : PPU × IS, q.execute_ticks m bus i = some r2 ∧
          r2.1.oam_dma_ticks = q.oam_dma_ticks - min m q.oam_dma_ticks) ∧
      (∀ q : PPU, q.oam_dma_src < 65536 →
        q.bus_read8 0xFF46 = some (q.oam_dma_src >>> 8)) := by
  have hw : p.bus_write8 0xFF46 v = some (p.dma_start v) := by
    norm_num [PPU.bus_write8, TILESET_START_ADDRESS, TILESET_END_ADDRESS,
      TILESET_RAM, TILEMAP_START_ADDRESS, TILEMAP_END_ADDRESS,
      OAM_START_ADDRESS, OAM_END_ADDRESS, OAM_RAM_SIZE, OAM_SPRITE_COUNT,
      OAM_SPRITE_SIZE, LCDC_ADDRESS, LCDS_ADDRESS, SCY_ADDRESS, SCX_ADDRESS,
      LY_ADDRESS, LYC_ADDRES, WY_ADDRESS, WX_ADDRESS, BG_PALETTE_ADDRESS,
      OBJ_PALETTE1_ADDRESS, OBJ_PALETTE2_ADDRESS, OAM_DMA_REGISTER_ADDRESS]
  have hread : ∀ q : PPU, q.bus_read8 0xFF46 = some ((q.oam_dma_src >>> 8) % 256) := by
    intro q
    norm_num [PPU.bus_read8, TILESET_START_ADDRESS, TILESET_END_ADDRESS,
      TILESET_RAM, TILEMAP_START_ADDRESS, TILEMAP_END_ADDRESS,
      OAM_START_ADDRESS, OAM_END_ADDRESS, OAM_RAM_SIZE, OAM_SPRITE_COUNT,
      OAM_SPRITE_SIZE, LCDC_ADDRESS, LCDS_ADDRESS, SCY_ADDRESS, SCX_ADDRESS,
      LY_ADDRESS, LYC_ADDRES, WY_ADDRESS, WX_ADDRESS, BG_PALETTE_ADDRESS,
      OBJ_PALETTE1_ADDRESS, OBJ_PALETTE2_ADDRESS, OAM_DMA_REGISTER_ADDRESS]
  have hsrc : (v <<< 8) >>> 8 = v := by
    rw [Nat.shiftLeft_eq, Nat.shiftRight_eq_div_pow]
    omega
  refine ⟨p.dma_start v, hw, rfl, rfl, rfl, rfl, ?_, ?_, ?_, ?_⟩
  · rw [hread]
    show some ((v <<< 8) >>> 8 % 256) = some v
    rw [hsrc]
    congr 1
    omega
  · obtain ⟨q1, r, hq, hex, hs, hsd, hot, _, _⟩ :=
      execute_ticks_spec (p.dma_start v) n bus i
    obtain ⟨q, hq2, hframe, hticks, hnt, ht⟩ := update_dma_spec (p.dma_start v) n bus
    have hqq : q = q1 := Option.some.inj (hq2.symm.trans hq)
    subst hqq
    obtain ⟨htlow, hthigh, htspr⟩ := ht rfl
    refine ⟨r, hex, ?_, ?_, ?_⟩
    · intro j hj
      rw [hsd]
      exact htlow j hj
    · intro k hk
      rw [hs]
      exact htspr k hk
    · rw [hot, hticks]
      have h160 : (p.dma_start v).oam_dma_ticks = 160 := rfl
      rw [h160]
      split_ifs with h <;> omega
  · intro q m h0 h256
    obtain ⟨q1, r2, hq, hex, _, _, hot, _, _⟩ := execute_ticks_spec q m bus i
    obtain ⟨q', hq2, hframe, hticks, _, _⟩ := update_dma_spec q m bus
    have hqq : q' = q1 := Option.some.inj (hq2.symm.trans hq)
    subst hqq
    refine ⟨r2, hex, ?_⟩
    rw [hot, hticks]
    split_ifs with h <;> omega
  · intro q hq
    rw [hread]
    congr 1
    have : q.oam_dma_src >>> 8 < 256 := by
      rw [Nat.shiftRight_eq_div_pow]
      omega
    omega

/-- Witness for C3 at v = 1, n = 7 from reset, with an identity-style bus. -/
theorem C3_witness :
    ∃ p2, PPU.new.bus_write8 0xFF46 1 = some p2 ∧
      p2.oam_dma_src = 1 <<< 8 ∧ p2.oam_dma_ticks = 160 ∧
      p2.sprites = PPU.new.sprites ∧ p2.sprite_data = PPU.new.sprite_data ∧
      p2.bus_read8 0xFF46 = some 1 ∧
      (∃ r : PPU × IS, p2.execute_ticks 7 (fun a => a % 256) IS.new = some r ∧
        (∀ j, j < 160 → r.1.sprite_data j = (fun a => a % 256) (1 <<< 8 + j)) ∧
        (∀ k, k < 40 → r.1.sprites k = OamSprite.set_attrib_byte
          { PPU.new.sprites k with
            ypos := (fun a => a % 256) (1 <<< 8 + 4 * k),
            xpos := (fun a => a % 256) (1 <<< 8 + (4 * k + 1)),
            tile := (fun a => a % 256) (1 <<< 8 + (4 * k + 2)) }
          ((fun a => a % 256) (1 <<< 8 + (4 * k + 3)))) ∧
        r.1.oam_dma_ticks = 160 - min 7 160) ∧
      (∀ q : PPU, ∀ m : Nat, 0 < q.oam_dma_ticks → q.oam_dma_ticks < 256 →
        ∃ r2 : PPU × IS, q.execute_ticks m (fun a => a % 256) IS.new = some r2 ∧
          r2.1.oam_dma_ticks = q.oam_dma_ticks - min m q.oam_dma_ticks) ∧
      (∀ q : PPU, q.oam_dma_src < 65536 →
        q.bus_read8 0xFF46 = some (q.oam_dma_src >>> 8)) :=
  C3_oam_dma PPU.new 1 7 (fun a => a % 256) IS.new (by decide) (by decide) (by decide)

/-- During V-blank (line_y >= 144) the mode-reclassification block is the
identity. -/
lemma mode_update_skip (p : PPU) (i : IS) (h : ¬ p.line_y < LCD_LINE_VBLANK_START) :
    p.ppu_mode_update i = (p, i) := by
  unfold PPU.ppu_mode_update
  rw [if_neg h]

/-- The three tick_counter ranges of the mode-reclassification block: the mode
becomes SPRITE_SEARCH / LCD_TRANSFER / HBLANK, and LCD-STAT is requested
exactly on a change into SPRITE_SEARCH with mode2_is or into HBLANK with
mode0_is; entry to LCD_TRANSFER never requests, and an unchanged mode never
requests. -/
lemma mode_block_cases (p : PPU) (i : IS) (hy : p.line_y < 144) :
    (p.tick_counter ≤ 79 →
      (p.ppu_mode_update i).1.mode = Mode.SPRITE_SEARCH ∧
      (p.ppu_mode_update i).2.lcdstat = i.lcdstat +
        (if Mode.SPRITE_SEARCH ≠ p.mode ∧ p.mode2_is = true then 1 else 0)) ∧
    (80 ≤ p.tick_counter ∧ p.tick_counter ≤ 251 →
      (p.ppu_mode_update i).1.mode = Mode.LCD_TRANSFER ∧
      (p.ppu_mode_update i).2.lcdstat = i.lcdstat) ∧
    (252 ≤ p.tick_counter →
      (p.ppu_mode_update i).1.mode = Mode.HBLANK ∧
      (p.ppu_mode_update i).2.lcdstat = i.lcdstat +
        (if Mode.HBLANK ≠ p.mode ∧ p.mode0_is = true then 1 else 0)) ∧
    (p.ppu_mode_update i).2.vblank = i.vblank := by
  simp only [PPU.ppu_mode_update, LCD_LINE_VBLANK_START, if_pos hy]
  refine ⟨?_, ?_, ?_, ?_⟩
  · intro h79
    simp only [if_pos h79]
    by_cases hne : Mode.SPRITE_SEARCH ≠ p.mode
    · rw [if_pos hne]
      by_cases h2 : p.mode2_is = true <;>
        simp_all [IS.request_lcdstat]
    · rw [if_neg hne]
      simp_all [IS.request_lcdstat]
  · intro h251
    rw [if_neg (by omega : ¬ p.tick_counter ≤ 79), if_pos (by omega : p.tick_counter ≤ 251)]
    by_cases hne : Mode.LCD_TRANSFER ≠ p.mode
    · rw [if_pos hne]
      simp
    · rw [if_neg hne]
      exact ⟨(not_ne_iff.mp hne).symm, rfl⟩
  · intro h252
    rw [if_neg (by omega : ¬ p.tick_counter ≤ 79), if_neg (by omega : ¬ p.tick_counter ≤ 251)]
    by_cases hne : Mode.HBLANK ≠ p.mode
    · rw [if_pos hne]
      by_cases h0 : p.mode0_is = true <;>
        simp_all [IS.request_lcdstat]
    · rw [if_neg hne]
      simp_all [IS.request_lcdstat]
  · by_cases h79 : p.tick_counter ≤ 79
    · simp only [if_pos h79]
      by_cases hne : Mode.SPRITE_SEARCH ≠ p.mode
      · rw [if_pos hne]
        by_cases h2 : p.mode2_is = true
        · show (if p.mode2_is = true then i.request_lcdstat else i).vblank = i.vblank
          rw [if_pos h2]
          rfl
        · show (if p.mode2_is = true then i.request_lcdstat else i).vblank = i.vblank
          rw [if_neg h2]
      · rw [if_neg hne]
    · simp only [if_neg h79]
      by_cases h251 : p.tick_counter ≤ 251
      · simp only [if_pos h251]
        by_cases hne : Mode.LCD_TRANSFER ≠ p.mode
        · rw [if_pos hne]
        · rw [if_neg hne]
      · simp only [if_neg h251]
        by_cases hne : Mode.HBLANK ≠ p.mode
        · rw [if_pos hne]
          by_cases h0 : p.mode0_is = true
          · show (if p.mode0_is = true then i.request_lcdstat else i).vblank = i.vblank
            rw [if_pos h0]
            rfl
          · show (if p.mode0_is = true then i.request_lcdstat else i).vblank = i.vblank
            rw [if_neg h0]
        · rw [if_neg hne]

/-- State used to refute C1 as stated: lcd on, one tick before the end of
line 0, LYC = 1 with the line-compare interrupt enabled, mode already
SPRITE_SEARCH, both mode-change interrupt enables off. -/
def cexC1 : PPU :=
  { PPU.new with
    lcd_enabled := true, tick_counter := 452,
    line_compare_value := 1, line_compare_is := true, mode := Mode.SPRITE_SEARCH }

/-- C1 counterexample: executing 4 ticks from cexC1 advances to line 1 < 144,
leaves the mode unchanged at SPRITE_SEARCH with mode2_is and mode0_is both
false — so the claimed iff says no request_lcdstat call is made — yet the call
makes one LCD-STAT request (from the line-compare logic). -/
theorem C1_counterexample :
    (PPU.execute_ticks cexC1 4 (fun _ => 0) IS.new).map
        (fun r => (r.1.line_y, r.1.mode, cexC1.mode, r.2.lcdstat,
          cexC1.mode2_is, cexC1.mode0_is))
      = some (1, Mode.SPRITE_SEARCH, Mode.SPRITE_SEARCH, 1, false, false) := by
  decide

/-- C1 (amended): with the LCD enabled, when line_y < 144 after the
line-advance phase, the call sets mode to SPRITE_SEARCH for tick_counter
0..=79, LCD_TRANSFER for 80..=251, HBLANK for 252.., and the
mode-reclassification phase requests LCD-STAT iff the mode changed to
SPRITE_SEARCH with mode2_is set or to HBLANK with mode0_is set — never on
entry to LCD_TRANSFER and never while the mode is unchanged; no V-blank is
requested, and the only other LCD-STAT request of the call comes from the
line-compare logic of the line-advance phase, exactly when the line advanced
to a line matching line_compare_value with line_compare_is set. -/
theorem C1_amended (p p1 : PPU) (ticks : Nat) (bus : Nat → Nat) (i : IS)
    (hdma : p.update_dma ticks bus = some p1)
    (hen : p1.lcd_enabled = true) :
    ∃ a : PPU × IS, (p1.tick_add ticks).ppu_line_advance i = a ∧
      ∃ r : PPU × IS, a.1.ppu_mode_update a.2 = r ∧
        p.execute_ticks ticks bus i = some r ∧
        (a.1.line_y < 144 →
          (a.1.tick_counter ≤ 79 →
            r.1.mode = Mode.SPRITE_SEARCH ∧
            r.2.lcdstat = a.2.lcdstat +
              (if Mode.SPRITE_SEARCH ≠ a.1.mode ∧ a.1.mode2_is = true then 1 else 0)) ∧
          (80 ≤ a.1.tick_counter ∧ a.1.tick_counter ≤ 251 →
            r.1.mode = Mode.LCD_TRANSFER ∧ r.2.lcdstat = a.2.lcdstat) ∧
          (252 ≤ a.1.tick_counter →
            r.1.mode = Mode.HBLANK ∧
            r.2.lcdstat = a.2.lcdstat +
              (if Mode.HBLANK ≠ a.1.mode ∧ a.1.mode0_is = true then 1 else 0)) ∧
          r.2.vblank = i.vblank ∧
          a.2.lcdstat = i.lcdstat +
            (if LCD_TICKS_PER_LINE ≤ (p1.tick_add ticks).tick_counter ∧
                a.1.line_compare = true ∧ a.1.line_compare_is = true
             then 1 else 0)) := by
  refine ⟨(p1.tick_add ticks).ppu_line_advance i, rfl,
    ((p1.tick_add ticks).ppu_line_advance i).1.ppu_mode_update
      ((p1.tick_add ticks).ppu_line_advance i).2, rfl, ?_, ?_⟩
  · unfold PPU.execute_ticks
    rw [hdma]
    simp only [hen, if_true]
  · intro hy
    obtain ⟨hssc, hltc, hhbc, hvbc⟩ :=
      mode_block_cases ((p1.tick_add ticks).ppu_line_advance i).1
        ((p1.tick_add ticks).ppu_line_advance i).2 hy
    refine ⟨hssc, hltc, hhbc, ?_, ?_⟩
    · rw [hvbc]
      by_cases hadv : LCD_TICKS_PER_LINE ≤ (p1.tick_add ticks).tick_counter
      · obtain ⟨_, hly, _, _, hvb, _⟩ := line_advance_char (p1.tick_add ticks) i hadv
        have h144 : ¬ ((p1.tick_add ticks).line_y + 1) % 256 = 144 := by
          intro hc
          rw [hc] at hly
          rw [hly] at hy
          norm_num at hy
        rw [hvb, if_neg h144]
      · rw [line_advance_skip _ _ hadv]
    · by_cases hadv : LCD_TICKS_PER_LINE ≤ (p1.tick_add ticks).tick_counter
      · obtain ⟨_, hly, hlc, _, _, hst⟩ := line_advance_char (p1.tick_add ticks) i hadv
        have h144 : ¬ ((p1.tick_add ticks).line_y + 1) % 256 = 144 := by
          intro hc
          rw [hc] at hly
          rw [hly] at hy
          norm_num at hy
        have hlcis : ((p1.tick_add ticks).ppu_line_advance i).1.line_compare_is
            = (p1.tick_add ticks).line_compare_is := by
          rw [line_advance_frame]
        rw [hst, if_neg (show ¬ (((p1.tick_add ticks).line_y + 1) % 256 = 144 ∧
          (p1.tick_add ticks).mode1_is = true) from fun hc => h144 hc.1)]
        simp only [hlc, hlcis]
        have hcond : (LCD_TICKS_PER_LINE ≤ (p1.tick_add ticks).tick_counter ∧
            ((p1.tick_add ticks).line_compare_value
              == ((p1.tick_add ticks).line_y + 1) % 256) = true ∧
            (p1.tick_add ticks).line_compare_is = true)
            = (((p1.tick_add ticks).line_compare_value
              == ((p1.tick_add ticks).line_y + 1) % 256) = true ∧
            (p1.tick_add ticks).line_compare_is = true) := by
          apply propext
          constructor
          · exact fun h => h.2
          · exact fun h => ⟨hadv, h⟩
        simp only [hcond]
        omega
      · rw [line_advance_skip _ _ hadv]
        rw [if_neg (fun hc => hadv hc.1)]
        rfl

/-- Concrete state for the C1 witness: lcd on, tick counter mid-line. -/
def c1wit : PPU :=
  { PPU.new with lcd_enabled := true, tick_counter := 76, mode2_is := true }

/-- Witness for C1 (amended) at c1wit with 4 ticks: no line advance, the mode
block fires (tick 80 selects LCD_TRANSFER). -/
theorem C1_witness :
    ∃ a : PPU × IS, (c1wit.tick_add 4).ppu_line_advance IS.new = a ∧
      ∃ r : PPU × IS, a.1.ppu_mode_update a.2 = r ∧
        c1wit.execute_ticks 4 (fun _ => 0) IS.new = some r ∧
        (a.1.line_y < 144 →
          (a.1.tick_counter ≤ 79 →
            r.1.mode = Mode.SPRITE_SEARCH ∧
            r.2.lcdstat = a.2.lcdstat +
              (if Mode.SPRITE_SEARCH ≠ a.1.mode ∧ a.1.mode2_is = true then 1 else 0)) ∧
          (80 ≤ a.1.tick_counter ∧ a.1.tick_counter ≤ 251 →
            r.1.mode = Mode.LCD_TRANSFER ∧ r.2.lcdstat = a.2.lcdstat) ∧
          (252 ≤ a.1.tick_counter →
            r.1.mode = Mode.HBLANK ∧
            r.2.lcdstat = a.2.lcdstat +
              (if Mode.HBLANK ≠ a.1.mode ∧ a.1.mode0_is = true then 1 else 0)) ∧
          r.2.vblank = IS.new.vblank ∧
          a.2.lcdstat = IS.new.lcdstat +
            (if LCD_TICKS_PER_LINE ≤ (c1wit.tick_add 4).tick_counter ∧
                a.1.line_compare = true ∧ a.1.line_compare_is = true
             then 1 else 0)) :=
  C1_amended c1wit c1wit 4 (fun _ => 0) IS.new rfl rfl

/-- State used to refute C2 as stated: lcd on, one tick before completing
line 143, LYC = 144 with the line-compare interrupt enabled, mode1_is off. -/
def cexC2 : PPU :=
  { PPU.new with
    lcd_enabled := true, tick_counter := 452, line_y := 143,
    line_compare_value := 144, line_compare_is := true, mode := Mode.HBLANK }

/-- C2 counterexample: executing 4 ticks from cexC2 crosses into line 144 and
VBLANK with mode1_is = false — so the claimed iff says no request_lcdstat call
is made on that call — yet one LCD-STAT request is made (by the line-compare
logic, since LYC = 144 matches the new line). -/
theorem C2_counterexample :
    (PPU.execute_ticks cexC2 4 (fun _ => 0) IS.new).map
        (fun r => (r.1.mode, r.1.line_y, r.2.vblank, r.2.lcdstat, cexC2.mode1_is))
      = some (Mode.VBLANK, 144, 1, 1, false) := by
  decide

/-- Initial state of the full-frame run (PPU::new with the LCD enabled and
mode1_is set, as in the repository's test_vblank_interrupts). -/
def frame0 : PPU := { PPU.new with lcd_enabled := true, mode1_is := true }

set_option maxRecDepth 100000 in
/-- C2 (amended): with the LCD enabled, a call that completes a line with the
incremented line_y equal to 144 sets mode to VBLANK, requests V-blank once,
and requests LCD-STAT from the V-blank entry iff mode1_is is set; the same
call additionally requests LCD-STAT from the line-compare logic exactly when
line_compare_value = 144 and line_compare_is is set.  A full frame from reset
(144 lines of 456 ticks) makes exactly one V-blank request, on the call
completing line 143, and the lines up to the end of the frame (call 297) add
no further V-blank or mode-1 LCD-STAT request until line 144 is crossed again
the next frame (call 298). -/
theorem C2_amended (p p1 : PPU) (ticks : Nat) (bus : Nat → Nat) (i : IS)
    (hdma : p.update_dma ticks bus = some p1)
    (hen : p1.lcd_enabled = true)
    (hadv : LCD_TICKS_PER_LINE ≤ (p1.tick_add ticks).tick_counter)
    (hy : (p1.line_y + 1) % 256 = 144) :
    (∃ r : PPU × IS, p.execute_ticks ticks bus i = some r ∧
      r.1.mode = Mode.VBLANK ∧ r.1.line_y = 144 ∧
      r.2.vblank = i.vblank + 1 ∧
      r.2.lcdstat = i.lcdstat
        + (if (p1.line_compare_value == 144) = true ∧ p1.line_compare_is = true
           then 1 else 0)
        + (if p1.mode1_is = true then 1 else 0)) ∧
    (run_lines frame0 IS.new 143).map (fun s => (s.1.line_y, s.2.vblank, s.2.lcdstat))
      = some (143, 0, 0) ∧
    (run_lines frame0 IS.new 144).map (fun s => (s.1.line_y, s.2.vblank, s.2.lcdstat))
      = some (144, 1, 1) ∧
    (run_lines frame0 IS.new 297).map (fun s => (s.1.line_y, s.2.vblank, s.2.lcdstat))
      = some (143, 1, 1) ∧
    (run_lines frame0 IS.new 298).map (fun s => (s.1.line_y, s.2.vblank, s.2.lcdstat))
      = some (144, 2, 2) := by
  refine ⟨?_, by decide, by decide, by decide, by decide⟩
  obtain ⟨htc, hly, hlc, hmode, hvb, hst⟩ := line_advance_char (p1.tick_add ticks) i hadv
  have hy' : ((p1.tick_add ticks).line_y + 1) % 256 = 144 := hy
  rw [hy'] at hly hlc hmode hvb hst
  rw [if_neg (by norm_num : ¬ (153 : Nat) < 144)] at hly
  rw [if_pos rfl] at hmode hvb
  have hskip := mode_update_skip ((p1.tick_add ticks).ppu_line_advance i).1
    ((p1.tick_add ticks).ppu_line_advance i).2
    (by rw [hly]; norm_num [LCD_LINE_VBLANK_START])
  refine ⟨((p1.tick_add ticks).ppu_line_advance i).1.ppu_mode_update
      ((p1.tick_add ticks).ppu_line_advance i).2, ?_, ?_, ?_, ?_, ?_⟩
  · unfold PPU.execute_ticks
    rw [hdma]
    simp only [hen, if_true]
  · rw [hskip]
    exact hmode
  · rw [hskip]
    exact hly
  · rw [hskip]
    exact hvb
  · rw [hskip]
    show ((p1.tick_add ticks).ppu_line_advance i).2.lcdstat = _
    rw [hst]
    have hm1 : ((p1.tick_add ticks).line_y + 1) % 256 = 144 ∧
        (p1.tick_add ticks).mode1_is = true ↔ (p1.tick_add ticks).mode1_is = true := by
      constructor
      · exact fun h => h.2
      · exact fun h => ⟨hy', h⟩
    simp only [propext hm1, hy', true_and]
    rfl

/-- Concrete state for the C2 witness: one tick before completing line 143
with mode1_is enabled. -/
def c2wit : PPU :=
  { PPU.new with
    lcd_enabled := true, tick_counter := 452, line_y := 143, mode1_is := true,
    mode := Mode.HBLANK }

set_option maxRecDepth 100000 in
/-- Witness for C2 (amended) at c2wit with 4 ticks. -/
theorem C2_witness :
    (∃ r : PPU × IS, c2wit.execute_ticks 4 (fun _ => 0) IS.new = some r ∧
      r.1.mode = Mode.VBLANK ∧ r.1.line_y = 144 ∧
      r.2.vblank = IS.new.vblank + 1 ∧
      r.2.lcdstat = IS.new.lcdstat
        + (if (c2wit.line_compare_value == 144) = true ∧ c2wit.line_compare_is = true
           then 1 else 0)
        + (if c2wit.mode1_is = true then 1 else 0)) ∧
    (run_lines frame0 IS.new 143).map (fun s => (s.1.line_y, s.2.vblank, s.2.lcdstat))
      = some (143, 0, 0) ∧
    (run_lines frame0 IS.new 144).map (fun s => (s.1.line_y, s.2.vblank, s.2.lcdstat))
      = some (144, 1, 1) ∧
    (run_lines frame0 IS.new 297).map (fun s => (s.1.line_y, s.2.vblank, s.2.lcdstat))
      = some (143, 1, 1) ∧
    (run_lines frame0 IS.new 298).map (fun s => (s.1.line_y, s.2.vblank, s.2.lcdstat))
      = some (144, 2, 2) :=
  C2_amended c2wit c2wit 4 (fun _ => 0) IS.new rfl rfl (by decide) (by decide)

/-- C9 (amended): immediately after an execute_ticks call with the LCD
enabled in which the line advanced without wrapping past line 153, the
line_compare flag equals (line_compare_value == line_y).  The original
invariant does not hold in every reachable state (see the counterexample at
reset, and writes to LYC do not recompute the flag). -/
theorem C9_amended (p p1 : PPU) (ticks : Nat) (bus : Nat → Nat) (i : IS)
    (hdma : p.update_dma ticks bus = some p1)
    (hen : p1.lcd_enabled = true)
    (hadv : LCD_TICKS_PER_LINE ≤ (p1.tick_add ticks).tick_counter)
    (hnw : (p1.line_y + 1) % 256 ≤ 153) :
    ∃ r : PPU × IS, p.execute_ticks ticks bus i = some r ∧
      r.1.line_compare = (r.1.line_compare_value == r.1.line_y) := by
  obtain ⟨htc, hly, hlc, hmode, hvb, hst⟩ := line_advance_char (p1.tick_add ticks) i hadv
  have hnw' : ¬ 153 < ((p1.tick_add ticks).line_y + 1) % 256 := by
    have : ((p1.tick_add ticks).line_y + 1) % 256 = (p1.line_y + 1) % 256 := rfl
    omega
  rw [if_neg hnw'] at hly
  refine ⟨((p1.tick_add ticks).ppu_line_advance i).1.ppu_mode_update
      ((p1.tick_add ticks).ppu_line_advance i).2, ?_, ?_⟩
  · unfold PPU.execute_ticks
    rw [hdma]
    simp only [hen, if_true]
  · have hframe := mode_update_frame ((p1.tick_add ticks).ppu_line_advance i).1
      ((p1.tick_add ticks).ppu_line_advance i).2
    rw [hframe]
    show ((p1.tick_add ticks).ppu_line_advance i).1.line_compare
      = (((p1.tick_add ticks).ppu_line_advance i).1.line_compare_value
          == ((p1.tick_add ticks).ppu_line_advance i).1.line_y)
    have hlcv : ((p1.tick_add ticks).ppu_line_advance i).1.line_compare_value
        = (p1.tick_add ticks).line_compare_value := by
      rw [line_advance_frame]
    rw [hlc, hlcv, hly]

/-- Concrete state for the C9 witness: lcd on, about to advance to line 6. -/
def c9wit : PPU :=
  { PPU.new with lcd_enabled := true, tick_counter := 452, line_y := 5 }

/-- Witness for C9 (amended) at c9wit with 4 ticks. -/
theorem C9_witness :
    ∃ r : PPU × IS, c9wit.execute_ticks 4 (fun _ => 0) IS.new = some r ∧
      r.1.line_compare = (r.1.line_compare_value == r.1.line_y) :=
  C9_amended c9wit c9wit 4 (fun _ => 0) IS.new rfl rfl (by decide) (by decide)

set_option maxRecDepth 8000 in
/-- Witness for C4 at address 0x8010 (tile 1, row 0, low plane), value 0xC6,
from reset. -/
theorem C4_witness :
    ∃ p2, PPU.new.bus_write8 0x8010 0xC6 = some p2 ∧
      p2.bus_read8 0x8010 = some 0xC6 ∧
      (∀ c, c < 8 →
        (((p2.tiles ((0x8010 - 0x8000) / 16)).pixel ((0x8010 >>> 1) &&& 7) c >>>
            (if 0x8010 &&& 1 != 0 then 1 else 0)) &&& 1 = (0xC6 >>> (7 - c)) &&& 1) ∧
        (((p2.tiles ((0x8010 - 0x8000) / 16)).pixel ((0x8010 >>> 1) &&& 7) c >>>
            (if 0x8010 &&& 1 != 0 then 0 else 1)) &&& 1
          = ((PPU.new.tiles ((0x8010 - 0x8000) / 16)).pixel ((0x8010 >>> 1) &&& 7) c >>>
            (if 0x8010 &&& 1 != 0 then 0 else 1)) &&& 1)) ∧
      (∀ y x, y ≠ (0x8010 >>> 1) &&& 7 →
        (p2.tiles ((0x8010 - 0x8000) / 16)).pixel y x
          = (PPU.new.tiles ((0x8010 - 0x8000) / 16)).pixel y x) ∧
      (∀ t, t ≠ (0x8010 - 0x8000) / 16 → p2.tiles t = PPU.new.tiles t) ∧
      (∀ j, j ≠ 0x8010 - 0x8000 → p2.tile_data j = PPU.new.tile_data j) ∧
      (∀ y, y < 8 → ∀ x, x < 8 →
        (write_bytes PPU.new 0x8000 s1_bytes).map (fun q => (q.tiles 0).pixel y x)
          = some ((s1_expected.getD y []).getD x 0)) :=
  C4_tile_write PPU.new 0x8010 0xC6 (by norm_num) (by norm_num) (by norm_num)

end DirtyDmg
